import Mathlib

/-!
Verification of the Voxelate voxelization core against its specification.

The development shallowly embeds the C++ sources (FVoxelGrid / FVoxelData in
Data/VoxelGrid.cpp, FOOBBoxProxy in Data/OOBBoxProxy.cpp, FCapsuleProxy in
Data/CapsuleProxy.cpp) in Lean.  Real-valued scalar arithmetic (C++ double)
is embedded as exact rational arithmetic.  Because Lean's built-in `Rat`
normalises through `Nat.gcd`, whose well-founded recursion the kernel cannot
evaluate, we use an explicit fraction type `Frac` (integer numerator,
positive natural denominator, no normalisation) for all executable
definitions, together with a semantics map `Frac.toRat : Frac → ℚ` used by
the symbolic proofs.  Fallible operations (C++ `checkf` / `TArray` range
asserts) are embedded as `Except`-returning functions.
-/

/-- Exact rational scalar: numerator over a positive denominator, not
normalised, so that all arithmetic is kernel-computable. -/
structure Frac where
  num : ℤ
  den : ℕ
  pos : 0 < den

instance : DecidableEq Frac := fun x y =>
  decidable_of_iff (x.num = y.num ∧ x.den = y.den)
    (by cases x; cases y; simp)

/-- Embed an integer as a fraction. -/
def Frac.ofInt (n : ℤ) : Frac := ⟨n, 1, Nat.one_pos⟩

instance (n : ℕ) : OfNat Frac n := ⟨Frac.ofInt n⟩

def Frac.add (x y : Frac) : Frac :=
  ⟨x.num * y.den + y.num * x.den, x.den * y.den, Nat.mul_pos x.pos y.pos⟩

def Frac.neg (x : Frac) : Frac := ⟨-x.num, x.den, x.pos⟩

def Frac.sub (x y : Frac) : Frac := x.add y.neg

def Frac.mul (x y : Frac) : Frac :=
  ⟨x.num * y.num, x.den * y.den, Nat.mul_pos x.pos y.pos⟩

/-- Division; the sign of the divisor's numerator is moved into the
numerator so the denominator stays positive.  Division by a numerically
zero divisor yields 0, matching the `x / 0 = 0` convention of `ℚ`. -/
def Frac.div (x y : Frac) : Frac :=
  if h : 0 < y.num then
    ⟨x.num * y.den, x.den * y.num.toNat, Nat.mul_pos x.pos (by omega)⟩
  else if h2 : y.num < 0 then
    ⟨-(x.num * y.den), x.den * (-y.num).toNat, Nat.mul_pos x.pos (by omega)⟩
  else
    ⟨0, 1, Nat.one_pos⟩

instance : Add Frac := ⟨Frac.add⟩
instance : Neg Frac := ⟨Frac.neg⟩
instance : Sub Frac := ⟨Frac.sub⟩
instance : Mul Frac := ⟨Frac.mul⟩
instance : Div Frac := ⟨Frac.div⟩

def Frac.le (x y : Frac) : Prop := x.num * (y.den : ℤ) ≤ y.num * (x.den : ℤ)

def Frac.lt (x y : Frac) : Prop := x.num * (y.den : ℤ) < y.num * (x.den : ℤ)

instance : LE Frac := ⟨Frac.le⟩
instance : LT Frac := ⟨Frac.lt⟩

instance (x y : Frac) : Decidable (x ≤ y) :=
  inferInstanceAs (Decidable (x.num * (y.den : ℤ) ≤ y.num * (x.den : ℤ)))

instance (x y : Frac) : Decidable (x < y) :=
  inferInstanceAs (Decidable (x.num * (y.den : ℤ) < y.num * (x.den : ℤ)))

/-- Numeric equality of fractions (the meaning of `==` on C++ doubles). -/
def Frac.eqv (x y : Frac) : Prop := x.num * (y.den : ℤ) = y.num * (x.den : ℤ)

instance (x y : Frac) : Decidable (x.eqv y) :=
  inferInstanceAs (Decidable (x.num * (y.den : ℤ) = y.num * (x.den : ℤ)))

/-- `FMath::FloorToFloat` / `FloorToInt` on an exact fraction: the floor,
as an integer.  `Int.fdiv` is floor division, exact here because the
denominator is positive. -/
def Frac.floorI (x : Frac) : ℤ := Int.fdiv x.num x.den

/-- `FMath::CeilToFloat` / `CeilToInt` on an exact fraction. -/
def Frac.ceilI (x : Frac) : ℤ := -Int.fdiv (-x.num) x.den

/-- `FMath::Abs`. -/
def Frac.absF (x : Frac) : Frac := ⟨|x.num|, x.den, x.pos⟩

/-- Semantics of a `Frac` as a rational number. -/
def Frac.toRat (x : Frac) : ℚ := (x.num : ℚ) / (x.den : ℚ)

/-! ## Vectors and boxes (FVector, FIntVector, FBox) -/

/-- World-space vector (`FVector`, components are C++ doubles). -/
structure FVector where
  X : Frac
  Y : Frac
  Z : Frac
deriving DecidableEq

/-- Integer vector (`FIntVector`). -/
structure FIntVector where
  X : ℤ
  Y : ℤ
  Z : ℤ
deriving DecidableEq

instance : Add FIntVector :=
  ⟨fun a b => ⟨a.X + b.X, a.Y + b.Y, a.Z + b.Z⟩⟩

def FVector.add (a b : FVector) : FVector := ⟨a.X + b.X, a.Y + b.Y, a.Z + b.Z⟩

def FVector.sub (a b : FVector) : FVector := ⟨a.X - b.X, a.Y - b.Y, a.Z - b.Z⟩

/-- Multiplication of a vector by a scalar. -/
def FVector.scale (a : FVector) (s : Frac) : FVector := ⟨a.X * s, a.Y * s, a.Z * s⟩

def FVector.dot (a b : FVector) : Frac := a.X * b.X + a.Y * b.Y + a.Z * b.Z

def FVector.zeroV : FVector := ⟨0, 0, 0⟩

/-- Numeric equality of vectors (`FVector::operator==`, exact compare). -/
def FVector.eqv (a b : FVector) : Prop := a.X.eqv b.X ∧ a.Y.eqv b.Y ∧ a.Z.eqv b.Z

instance (a b : FVector) : Decidable (a.eqv b) := by
  unfold FVector.eqv; infer_instance

/-- Axis-aligned world-space box (`FBox`). -/
structure FBox where
  Min : FVector
  Max : FVector
deriving DecidableEq

def FBox.GetSize (b : FBox) : FVector := b.Max.sub b.Min

def FBox.GetCenter (b : FBox) : FVector := (b.Min.add b.Max).scale ⟨1, 2, Nat.succ_pos 1⟩

/-- `FBox::IsInsideOrOn(FVector)`: the point is inside the box or on a
face (boundary inclusive). -/
def FBox.IsInsideOrOnV (b : FBox) (p : FVector) : Prop :=
  b.Min.X ≤ p.X ∧ p.X ≤ b.Max.X ∧
  b.Min.Y ≤ p.Y ∧ p.Y ≤ b.Max.Y ∧
  b.Min.Z ≤ p.Z ∧ p.Z ≤ b.Max.Z

instance (b : FBox) (p : FVector) : Decidable (b.IsInsideOrOnV p) := by
  unfold FBox.IsInsideOrOnV; infer_instance

/-- `FBox::IsInsideOrOn(FBox)`: the other box is entirely inside this box,
boundary inclusive (both of its extreme corners are inside or on). -/
def FBox.IsInsideOrOnB (b other : FBox) : Prop :=
  b.IsInsideOrOnV other.Min ∧ b.IsInsideOrOnV other.Max

instance (b other : FBox) : Decidable (b.IsInsideOrOnB other) := by
  unfold FBox.IsInsideOrOnB; infer_instance

/-- Numeric equality of boxes (`FBox::operator==`). -/
def FBox.eqv (a b : FBox) : Prop := a.Min.eqv b.Min ∧ a.Max.eqv b.Max

instance (a b : FBox) : Decidable (a.eqv b) := by
  unfold FBox.eqv; infer_instance

/-! ## The voxel grid (FVoxelGrid, Data/VoxelGrid.cpp) -/

/-- Failure kinds of the guarded operations (`checkf` assertions and
`TArray` range asserts in the C++ source). -/
inductive VoxErr where
  | outOfBounds
  | sizeMismatch
  | invalidCoordinate
  | invalidIndex
  | rangeError
deriving DecidableEq

instance {e a : Type} [DecidableEq e] [DecidableEq a] : DecidableEq (Except e a) := fun x y =>
  match x, y with
  | .ok u, .ok v =>
    if h : u = v then .isTrue (by rw [h]) else .isFalse (by simp [h])
  | .ok _, .error _ => .isFalse (by simp)
  | .error _, .ok _ => .isFalse (by simp)
  | .error u, .error v =>
    if h : u = v then .isTrue (by rw [h]) else .isFalse (by simp [h])

/-- `FVoxelGrid`: cell size, snapped world bounds, per-axis cell counts and
the optional offset into a parent grid (set only for sub-grids). -/
structure FVoxelGrid where
  VoxelSize : FVector
  Bounds : FBox
  VoxelCount : FIntVector
  Offset : Option FIntVector
deriving DecidableEq

/-- `FVoxelGrid::Init(FVector, FBox)`: snap the bounds outward to voxel
multiples (floor on min, ceil on max) and derive the voxel counts. -/
def FVoxelGrid.Init (s : FVector) (b : FBox) : FVoxelGrid :=
  let bmin : FVector :=
    ⟨(Frac.ofInt ((b.Min.X / s.X).floorI)) * s.X,
     (Frac.ofInt ((b.Min.Y / s.Y).floorI)) * s.Y,
     (Frac.ofInt ((b.Min.Z / s.Z).floorI)) * s.Z⟩
  let bmax : FVector :=
    ⟨(Frac.ofInt ((b.Max.X / s.X).ceilI)) * s.X,
     (Frac.ofInt ((b.Max.Y / s.Y).ceilI)) * s.Y,
     (Frac.ofInt ((b.Max.Z / s.Z).ceilI)) * s.Z⟩
  { VoxelSize := s
    Bounds := ⟨bmin, bmax⟩
    VoxelCount :=
      ⟨((bmax.X - bmin.X) / s.X).ceilI,
       ((bmax.Y - bmin.Y) / s.Y).ceilI,
       ((bmax.Z - bmin.Z) / s.Z).ceilI⟩
    Offset := none }

/-- `FVoxelGrid::GetVoxelCount`: total number of voxels. -/
def FVoxelGrid.GetVoxelCount (g : FVoxelGrid) : ℤ :=
  g.VoxelCount.X * g.VoxelCount.Y * g.VoxelCount.Z

/-- `FVoxelGrid::IsVoxelIndexValid`. -/
def FVoxelGrid.IsVoxelIndexValid (g : FVoxelGrid) (i : ℤ) : Prop :=
  0 ≤ i ∧ i < g.GetVoxelCount

instance (g : FVoxelGrid) (i : ℤ) : Decidable (g.IsVoxelIndexValid i) := by
  unfold FVoxelGrid.IsVoxelIndexValid; infer_instance

/-- `FVoxelGrid::IsVoxelCoordinateValid`. -/
def FVoxelGrid.IsVoxelCoordinateValid (g : FVoxelGrid) (c : FIntVector) : Prop :=
  0 ≤ c.X ∧ c.X < g.VoxelCount.X ∧
  0 ≤ c.Y ∧ c.Y < g.VoxelCount.Y ∧
  0 ≤ c.Z ∧ c.Z < g.VoxelCount.Z

instance (g : FVoxelGrid) (c : FIntVector) : Decidable (g.IsVoxelCoordinateValid c) := by
  unfold FVoxelGrid.IsVoxelCoordinateValid; infer_instance

/-- `FVoxelGrid::IsLocationInBounds`. -/
def FVoxelGrid.IsLocationInBounds (g : FVoxelGrid) (l : FVector) : Prop :=
  g.Bounds.IsInsideOrOnV l

instance (g : FVoxelGrid) (l : FVector) : Decidable (g.IsLocationInBounds l) := by
  unfold FVoxelGrid.IsLocationInBounds; infer_instance

/-- `FVoxelGrid::IsGridInside`: the other grid's bounds are contained in
this grid's bounds (inclusive). -/
def FVoxelGrid.IsGridInside (g other : FVoxelGrid) : Prop :=
  g.Bounds.IsInsideOrOnB other.Bounds

instance (g other : FVoxelGrid) : Decidable (g.IsGridInside other) := by
  unfold FVoxelGrid.IsGridInside; infer_instance

/-- `FVoxelGrid::GetVoxelCoordinate(FVector)`: floor-divide the offset
from the bounds minimum by the voxel size, per axis. -/
def FVoxelGrid.GetVoxelCoordinateL (g : FVoxelGrid) (l : FVector) : FIntVector :=
  ⟨((l.X - g.Bounds.Min.X) / g.VoxelSize.X).floorI,
   ((l.Y - g.Bounds.Min.Y) / g.VoxelSize.Y).floorI,
   ((l.Z - g.Bounds.Min.Z) / g.VoxelSize.Z).floorI⟩

/-- `FVoxelGrid::GetVoxelIndex(FIntVector)` (unguarded arithmetic):
linearize with X fastest-varying. -/
def FVoxelGrid.GetVoxelIndexC (g : FVoxelGrid) (c : FIntVector) : ℤ :=
  c.X + c.Y * g.VoxelCount.X + c.Z * g.VoxelCount.X * g.VoxelCount.Y

/-- `FVoxelGrid::GetVoxelIndex(FVector)` (unguarded arithmetic): floor
coordinates combined with per-axis counts recomputed by `ceil(size/voxel)`
exactly as in the source. -/
def FVoxelGrid.GetVoxelIndexL (g : FVoxelGrid) (l : FVector) : ℤ :=
  ((l.X - g.Bounds.Min.X) / g.VoxelSize.X).floorI +
  ((l.Y - g.Bounds.Min.Y) / g.VoxelSize.Y).floorI *
    (((g.Bounds.Max.X - g.Bounds.Min.X) / g.VoxelSize.X).ceilI) +
  ((l.Z - g.Bounds.Min.Z) / g.VoxelSize.Z).floorI *
    (((g.Bounds.Max.X - g.Bounds.Min.X) / g.VoxelSize.X).ceilI) *
    (((g.Bounds.Max.Y - g.Bounds.Min.Y) / g.VoxelSize.Y).ceilI)

/-- `FVoxelGrid::GetVoxelCoordinate(int32)` (unguarded arithmetic): invert
the linearization; C++ integer division truncates toward zero (`Int.tdiv`). -/
def FVoxelGrid.GetVoxelCoordinateI (g : FVoxelGrid) (i : ℤ) : FIntVector :=
  let z := Int.tdiv i (g.VoxelCount.X * g.VoxelCount.Y)
  let y := Int.tdiv (i - z * g.VoxelCount.X * g.VoxelCount.Y) g.VoxelCount.X
  let x := i - z * g.VoxelCount.X * g.VoxelCount.Y - y * g.VoxelCount.X
  ⟨x, y, z⟩

/-- `FVoxelGrid::Init(FVoxelGrid, FBox)`: initialize from the parent's
voxel size and the sub-bounds, then record the offset of the sub-grid's
origin in the parent's coordinate space. -/
def FVoxelGrid.InitSub (parent : FVoxelGrid) (b : FBox) : FVoxelGrid :=
  { FVoxelGrid.Init parent.VoxelSize b with
    Offset := some (parent.GetVoxelCoordinateL b.Min) }

/-- `FVoxelGrid::GetSubGrid`. -/
def FVoxelGrid.GetSubGrid (g : FVoxelGrid) (b : FBox) : FVoxelGrid :=
  g.InitSub b

/-- `FVoxelGrid::operator==`: compares only voxel size and bounds
(numerically, as C++ `==` on doubles); the offset does not participate. -/
def FVoxelGrid.eqOp (a b : FVoxelGrid) : Prop :=
  a.VoxelSize.eqv b.VoxelSize ∧ a.Bounds.eqv b.Bounds

instance (a b : FVoxelGrid) : Decidable (a.eqOp b) := by
  unfold FVoxelGrid.eqOp; infer_instance

/-- `FVoxelGrid::GetVoxelIndex(FIntVector)` with its `checkf` guard. -/
def FVoxelGrid.GetVoxelIndexCE (g : FVoxelGrid) (c : FIntVector) : Except VoxErr ℤ :=
  if g.IsVoxelCoordinateValid c then .ok (g.GetVoxelIndexC c)
  else .error .invalidCoordinate

/-- `FVoxelGrid::GetVoxelCoordinate(int32)` with its `checkf` guard. -/
def FVoxelGrid.GetVoxelCoordinateIE (g : FVoxelGrid) (i : ℤ) : Except VoxErr FIntVector :=
  if g.IsVoxelIndexValid i then .ok (g.GetVoxelCoordinateI i)
  else .error .invalidIndex

/-- `FVoxelGrid::GetVoxelIndex(FVector)` with its `checkf` guard (fails
with `OutOfBounds` when the location is not inside the bounds). -/
def FVoxelGrid.GetVoxelIndexLE (g : FVoxelGrid) (l : FVector) : Except VoxErr ℤ :=
  if g.IsLocationInBounds l then .ok (g.GetVoxelIndexL l)
  else .error .outOfBounds

/-! ## The occupancy store (FVoxelData, Data/VoxelGrid.cpp) -/

/-- `FVoxelData`: a boolean occupancy array bound to a grid. -/
structure FVoxelData where
  OccupancyData : List Bool
  VoxelGrid : FVoxelGrid
deriving DecidableEq

/-- `FVoxelData::Init`: all cells false, sized by the grid's voxel count. -/
def FVoxelData.InitData (g : FVoxelGrid) : FVoxelData :=
  ⟨List.replicate g.GetVoxelCount.toNat false, g⟩

/-- One iteration of the offset branch of `FVoxelData::And`/`Or`/`Xor`:
translate the input's local coordinate for flat index `i` by the offset,
compute the index in this store's grid (`checkf` guards) and combine into
the cell there (`TArray` range assert). -/
def FVoxelData.combStep (op : Bool → Bool → Bool) (tg og : FVoxelGrid)
    (off : FIntVector) (ocells : List Bool) (s : List Bool) (i : ℕ) :
    Except VoxErr (List Bool) := do
  let c ← og.GetVoxelCoordinateIE (i : ℤ)
  let idx ← tg.GetVoxelIndexCE (off + c)
  if h : idx.toNat < s.length then
    .ok (s.set idx.toNat (op (s.get ⟨idx.toNat, h⟩) (ocells.getD i false)))
  else .error .rangeError

/-- One iteration of the positional branch of `FVoxelData::And`/`Or`/`Xor`:
combine cell `i` with cell `i` of the input (`TArray` range assert on the
input read). -/
def FVoxelData.posStep (op : Bool → Bool → Bool) (ocells : List Bool)
    (s : List Bool) (i : ℕ) : Except VoxErr (List Bool) :=
  if h : i < ocells.length then
    .ok (s.set i (op (s.getD i false) (ocells.get ⟨i, h⟩)))
  else .error .rangeError

/-- Common body of `FVoxelData::And` / `Or` / `Xor` (the three C++ members
are identical except for the boolean operator): grid-containment and size
`checkf` guards, then either the offset-translating loop over the input's
cells or the strictly positional loop over this store's cells. -/
def FVoxelData.Combine (op : Bool → Bool → Bool) (a b : FVoxelData) :
    Except VoxErr FVoxelData :=
  if ¬ a.VoxelGrid.IsGridInside b.VoxelGrid then .error .outOfBounds
  else if a.OccupancyData.length < b.OccupancyData.length then .error .sizeMismatch
  else
    match b.VoxelGrid.Offset with
    | some off =>
      ((List.range b.OccupancyData.length).foldlM
        (FVoxelData.combStep op a.VoxelGrid b.VoxelGrid off b.OccupancyData)
        a.OccupancyData).map (fun cells => ⟨cells, a.VoxelGrid⟩)
    | none =>
      ((List.range a.OccupancyData.length).foldlM
        (FVoxelData.posStep op b.OccupancyData)
        a.OccupancyData).map (fun cells => ⟨cells, a.VoxelGrid⟩)

/-- `FVoxelData::And`. -/
def FVoxelData.AndD (a b : FVoxelData) : Except VoxErr FVoxelData :=
  FVoxelData.Combine (fun x y => x && y) a b

/-- `FVoxelData::Or`. -/
def FVoxelData.OrD (a b : FVoxelData) : Except VoxErr FVoxelData :=
  FVoxelData.Combine (fun x y => x || y) a b

/-- `FVoxelData::Xor`. -/
def FVoxelData.XorD (a b : FVoxelData) : Except VoxErr FVoxelData :=
  FVoxelData.Combine (fun x y => Bool.xor x y) a b

/-! ## Oriented box proxy (FOOBBoxProxy, Data/OOBBoxProxy.cpp) -/

def FVector.cross (a b : FVector) : FVector :=
  ⟨a.Y * b.Z - a.Z * b.Y, a.Z * b.X - a.X * b.Z, a.X * b.Y - a.Y * b.X⟩

/-- Quaternion with exact rational components (`FQuat`). -/
structure FQuatD where
  X : Frac
  Y : Frac
  Z : Frac
  W : Frac
deriving DecidableEq

/-- The identity quaternion. -/
def FQuatD.ident : FQuatD := ⟨0, 0, 0, 1⟩

/-- `FQuat::RotateVector`: `v + w*(2 q⃗ × v) + q⃗ × (2 q⃗ × v)`. -/
def FQuatD.RotateVector (q : FQuatD) (v : FVector) : FVector :=
  let qv : FVector := ⟨q.X, q.Y, q.Z⟩
  let tt := (qv.cross v).scale 2
  (v.add (tt.scale q.W)).add (qv.cross tt)

/-- `FQuat::UnrotateVector`: rotate by the conjugate. -/
def FQuatD.UnrotateVector (q : FQuatD) (v : FVector) : FVector :=
  FQuatD.RotateVector ⟨-q.X, -q.Y, -q.Z, q.W⟩ v

/-- `FQuat::GetAxisX` (the image of the world X axis). -/
def FQuatD.GetAxisX (q : FQuatD) : FVector := q.RotateVector ⟨1, 0, 0⟩

/-- `FQuat::GetAxisY`. -/
def FQuatD.GetAxisY (q : FQuatD) : FVector := q.RotateVector ⟨0, 1, 0⟩

/-- `FQuat::GetAxisZ`. -/
def FQuatD.GetAxisZ (q : FQuatD) : FVector := q.RotateVector ⟨0, 0, 1⟩

/-- `FOOBBoxProxy`: oriented box with world center, half extents along its
local axes and an orientation. -/
structure FOOBBoxProxy where
  Center : FVector
  Extents : FVector
  Orientation : FQuatD
  bSlerpRotation : Bool
deriving DecidableEq

/-- `FOOBBoxProxy::GetAxis`, packaged as indexing (0 → X, 1 → Y, else Z). -/
def FOOBBoxProxy.axisArr (b : FOOBBoxProxy) (i : ℕ) : FVector :=
  match i with
  | 0 => b.Orientation.GetAxisX
  | 1 => b.Orientation.GetAxisY
  | _ => b.Orientation.GetAxisZ

/-- Component indexing `v[i]` of `FVector` (0 → X, 1 → Y, else Z). -/
def FVector.comp (v : FVector) (i : ℕ) : Frac :=
  match i with
  | 0 => v.X
  | 1 => v.Y
  | _ => v.Z

/-- `FOOBBoxProxy::GetCorners`, in source order. -/
def FOOBBoxProxy.GetCorners (b : FOOBBoxProxy) : List FVector :=
  let hx := b.Orientation.GetAxisX.scale b.Extents.X
  let hy := b.Orientation.GetAxisY.scale b.Extents.Y
  let hz := b.Orientation.GetAxisZ.scale b.Extents.Z
  [((b.Center.add hx).add hy).add hz,
   ((b.Center.add hx).add hy).sub hz,
   ((b.Center.add hx).sub hy).add hz,
   ((b.Center.add hx).sub hy).sub hz,
   ((b.Center.sub hx).add hy).add hz,
   ((b.Center.sub hx).add hy).sub hz,
   ((b.Center.sub hx).sub hy).add hz,
   ((b.Center.sub hx).sub hy).sub hz]

/-- `FOOBBoxProxy::IsInsideOrOn(FVector)`: transform the point into the
box's local frame and compare against the extents. -/
def FOOBBoxProxy.IsInsideOrOnP (b : FOOBBoxProxy) (p : FVector) : Bool :=
  let lp := b.Orientation.UnrotateVector (p.sub b.Center)
  decide (lp.X.absF ≤ b.Extents.X) &&
  decide (lp.Y.absF ≤ b.Extents.Y) &&
  decide (lp.Z.absF ≤ b.Extents.Z)

/-- `FOOBBoxProxy::IsInsideOrOn(FOOBBoxProxy)` as implemented: fetch the
corners of `other` and return true as soon as one of them is inside or on
`this` (the early `return true` inside the loop). -/
def FOOBBoxProxy.IsInsideOrOnOBB (this_ other : FOOBBoxProxy) : Bool :=
  other.GetCorners.any (fun c => this_.IsInsideOrOnP c)

/-- `KINDA_SMALL_NUMBER` (1e-4), the epsilon added to `AbsR`. -/
def kindaSmall : Frac := ⟨1, 10000, by norm_num⟩

/-- `R[i][j]` of `FOOBBoxProxy::Intersect`: the rotation matrix expressing
`other` in `this`'s coordinate frame. -/
def FOOBBoxProxy.Rmat (A B : FOOBBoxProxy) (i j : ℕ) : Frac :=
  (A.axisArr i).dot (B.axisArr j)

/-- `AbsR[i][j]` of `FOOBBoxProxy::Intersect`: absolute value plus epsilon. -/
def FOOBBoxProxy.AbsRmat (A B : FOOBBoxProxy) (i j : ℕ) : Frac :=
  (A.Rmat B i j).absF + kindaSmall

/-- `TA` of `FOOBBoxProxy::Intersect`: the center-to-center translation
expressed in `this`'s frame. -/
def FOOBBoxProxy.TAvec (A B : FOOBBoxProxy) : FVector :=
  let t := B.Center.sub A.Center
  ⟨t.dot (A.axisArr 0), t.dot (A.axisArr 1), t.dot (A.axisArr 2)⟩

/-- Face-axis test of `this` (`L = A0, A1, A2`) in `FOOBBoxProxy::Intersect`:
the axis does not separate. -/
def FOOBBoxProxy.condFaceA (A B : FOOBBoxProxy) (i : ℕ) : Prop :=
  ((A.TAvec B).comp i).absF ≤
    A.Extents.comp i +
    (B.Extents.X * A.AbsRmat B i 0 + B.Extents.Y * A.AbsRmat B i 1 +
     B.Extents.Z * A.AbsRmat B i 2)

/-- Face-axis test of `other` (`L = B0, B1, B2`): the axis does not separate. -/
def FOOBBoxProxy.condFaceB (A B : FOOBBoxProxy) (i : ℕ) : Prop :=
  ((A.TAvec B).comp 0 * A.Rmat B 0 i + (A.TAvec B).comp 1 * A.Rmat B 1 i +
   (A.TAvec B).comp 2 * A.Rmat B 2 i).absF ≤
    (A.Extents.X * A.AbsRmat B 0 i + A.Extents.Y * A.AbsRmat B 1 i +
     A.Extents.Z * A.AbsRmat B 2 i) + B.Extents.comp i

/-- The standalone `L = A0 x B0` test preceding the loop. -/
def FOOBBoxProxy.condA0B0 (A B : FOOBBoxProxy) : Prop :=
  ((A.TAvec B).comp 2 * A.Rmat B 1 0 - (A.TAvec B).comp 1 * A.Rmat B 2 0).absF ≤
    (A.Extents.Y * A.AbsRmat B 2 0 + A.Extents.Z * A.AbsRmat B 1 0) +
    (B.Extents.Y * A.AbsRmat B 0 2 + B.Extents.Z * A.AbsRmat B 0 1)

/-- One iteration of the 9-case cross-product-axis loop of
`FOOBBoxProxy::Intersect`, with the table entries `I`, `M`, `N` passed in
(the table's second column `J` is never read by the loop body). -/
def FOOBBoxProxy.condEdge (A B : FOOBBoxProxy) (I M N : ℕ) : Prop :=
  ((A.TAvec B).comp ((I + 2) % 3) * A.Rmat B ((I + 1) % 3) N -
   (A.TAvec B).comp ((I + 1) % 3) * A.Rmat B ((I + 2) % 3) N).absF ≤
    (A.Extents.comp M * A.AbsRmat B ((I + 1) % 3) N +
     A.Extents.comp ((I + 2) % 3) * A.AbsRmat B ((I + 2) % 3) N) +
    (B.Extents.comp ((N + 1) % 3) * A.AbsRmat B I ((N + 2) % 3) +
     B.Extents.comp ((N + 2) % 3) * A.AbsRmat B I ((N + 1) % 3))

instance (A B : FOOBBoxProxy) (i : ℕ) : Decidable (A.condFaceA B i) := by
  unfold FOOBBoxProxy.condFaceA; infer_instance

instance (A B : FOOBBoxProxy) (i : ℕ) : Decidable (A.condFaceB B i) := by
  unfold FOOBBoxProxy.condFaceB; infer_instance

instance (A B : FOOBBoxProxy) : Decidable (A.condA0B0 B) := by
  unfold FOOBBoxProxy.condA0B0; infer_instance

instance (A B : FOOBBoxProxy) (I M N : ℕ) : Decidable (A.condEdge B I M N) := by
  unfold FOOBBoxProxy.condEdge; infer_instance

/-- `FOOBBoxProxy::Intersect(FOOBBoxProxy)`: the separating-axis test in
source order — this box's three face axes, the other's three face axes,
the standalone `A0 x B0` test, then the 9 table-driven cross-product
tests.  True iff no test separates. -/
def FOOBBoxProxy.Intersect (A B : FOOBBoxProxy) : Bool :=
  decide (A.condFaceA B 0) && decide (A.condFaceA B 1) && decide (A.condFaceA B 2) &&
  decide (A.condFaceB B 0) && decide (A.condFaceB B 1) && decide (A.condFaceB B 2) &&
  decide (A.condA0B0 B) &&
  decide (A.condEdge B 0 2 0) && decide (A.condEdge B 0 2 1) && decide (A.condEdge B 0 2 2) &&
  decide (A.condEdge B 1 0 0) && decide (A.condEdge B 1 0 1) && decide (A.condEdge B 1 0 2) &&
  decide (A.condEdge B 2 1 0) && decide (A.condEdge B 2 1 1) && decide (A.condEdge B 2 1 2)

/-! ## Sphere and capsule proxies (SphereProxy.cpp / CapsuleProxy.cpp) -/

/-- `FMath::SphereAABBIntersection(Center, RadiusSquared, AABB)`: squared
distance from the center to the box (per-axis clamp), compared with the
squared radius. -/
def sphereAABBIntersection (c : FVector) (rsq : Frac) (box : FBox) : Bool :=
  let dx : Frac :=
    if c.X < box.Min.X then (c.X - box.Min.X) * (c.X - box.Min.X)
    else if box.Max.X < c.X then (c.X - box.Max.X) * (c.X - box.Max.X)
    else 0
  let dy : Frac :=
    if c.Y < box.Min.Y then (c.Y - box.Min.Y) * (c.Y - box.Min.Y)
    else if box.Max.Y < c.Y then (c.Y - box.Max.Y) * (c.Y - box.Max.Y)
    else 0
  let dz : Frac :=
    if c.Z < box.Min.Z then (c.Z - box.Min.Z) * (c.Z - box.Min.Z)
    else if box.Max.Z < c.Z then (c.Z - box.Max.Z) * (c.Z - box.Max.Z)
    else 0
  decide (dx + dy + dz ≤ rsq)

/-- `DBL_EPSILON` (2⁻⁵²), the degenerate-segment guard. -/
def dblEps : Frac := ⟨1, 2 ^ 52, by norm_num⟩

/-- `SMALL_NUMBER` (1e-8), the default `GetSafeNormal` tolerance. -/
def smallNumber : Frac := ⟨1, 100000000, by norm_num⟩

/-- Integer square root by bounded linear scan; exact whenever the input
is a perfect square, which holds at every concrete input used below.  It
stands in for the floating-point square root of the engine. -/
def intSqrtL (n : ℕ) : ℕ :=
  (List.range (n + 1)).foldl (fun acc k => if k * k ≤ n then k else acc) 0

/-- Square root of a fraction via integer square roots of the reduced
numerator and denominator; exact on perfect squares (all uses below). -/
def Frac.sqrtPS (x : Frac) : Frac :=
  let g := Nat.gcd x.num.toNat x.den
  ⟨(intSqrtL (x.num.toNat / g) : ℤ), max 1 (intSqrtL (x.den / g)),
   Nat.lt_of_lt_of_le Nat.one_pos (Nat.le_max_left 1 _)⟩

/-- `FVector::GetSafeNormal` (default tolerance): zero for degenerate
vectors, otherwise the vector scaled by the inverse length. -/
def FVector.GetSafeNormal (v : FVector) : FVector :=
  let ss := v.dot v
  if ss.eqv 1 then v
  else if ss < smallNumber then FVector.zeroV
  else v.scale (Frac.ofInt 1 / ss.sqrtPS)

/-- `FCapsuleProxy`: world-space segment endpoints and radius. -/
structure FCapsuleProxy where
  Start : FVector
  CapEnd : FVector
  Radius : Frac
deriving DecidableEq

/-- `FPointLineProjection`: projection result; `RelationToSegment` is the
clamped int sign (-1 before the start, 1 past the end, 0 on the segment).
The default-constructed value has a zero `ProjectedPoint`. -/
structure FPointLineProjection where
  ProjectedPoint : FVector
  RelationToSegment : ℤ
deriving DecidableEq

/-- `FPointLineProjection::ProjectPointToLineSegment`: degenerate segments
(squared length below `DBL_EPSILON`) return the default-constructed
result; otherwise the point is projected and clamped to the segment. -/
def FPointLineProjection.ProjectPointToLineSegment (ls le pt : FVector) :
    FPointLineProjection :=
  let pointOffset := pt.sub ls
  let edge := le.sub ls
  let lineLength := edge.dot edge
  if lineLength < dblEps then ⟨FVector.zeroV, 0⟩
  else
    let dotv := pointOffset.dot edge
    let rel := dotv / lineLength
    if rel < 0 then ⟨ls, -1⟩
    else if (1 : Frac) < rel then ⟨le, 1⟩
    else ⟨ls.add (edge.scale rel), 0⟩

/-- `FCapsuleProxy::Intersects(FBox)`: project the box center onto the
capsule segment; endpoint hits degenerate to sphere tests, otherwise test
whether the box contains the point on the capsule surface nearest the box
center. -/
def FCapsuleProxy.Intersects (cap : FCapsuleProxy) (box : FBox) : Bool :=
  let proj := FPointLineProjection.ProjectPointToLineSegment cap.Start cap.CapEnd box.GetCenter
  if proj.RelationToSegment < 0 then
    sphereAABBIntersection cap.Start (cap.Radius * cap.Radius) box
  else if 0 < proj.RelationToSegment then
    sphereAABBIntersection cap.CapEnd (cap.Radius * cap.Radius) box
  else
    let np := (box.GetCenter.sub proj.ProjectedPoint).GetSafeNormal
    decide (box.IsInsideOrOnV (proj.ProjectedPoint.add (np.scale cap.Radius)))

/-- The target flat index of local cell `i` when merging with offset
`off` from grid `og` into grid `tg`. -/
def offTarget (tg og : FVoxelGrid) (off : FIntVector) (i : ℕ) : ℕ :=
  (tg.GetVoxelIndexC (off + og.GetVoxelCoordinateI (i : ℤ))).toNat

/-- Concrete scenario of the spec's sub-grid merge example: unit cell
size, global box `[(0,0,0),(2,2,2)]` (8 cells), sub-box
`[(1,0,0),(2,2,2)]` (4 cells, offset `(1,0,0)`). -/
def subMergeSize : FVector := ⟨1, 1, 1⟩

def subMergeGB : FBox := ⟨⟨0, 0, 0⟩, ⟨2, 2, 2⟩⟩

def subMergeB : FBox := ⟨⟨1, 0, 0⟩, ⟨2, 2, 2⟩⟩

def subMergeG : List Bool := List.replicate 8 false

def subMergeL : List Bool := [true, false, false, false]

/-! ## Frac semantics lemmas -/

theorem Frac.den_pos_q (x : Frac) : (0 : ℚ) < (x.den : ℚ) := by
  exact_mod_cast x.pos

theorem Frac.den_ne_zero_q (x : Frac) : ((x.den : ℚ)) ≠ 0 :=
  ne_of_gt x.den_pos_q

theorem Frac.toRat_ofInt (n : ℤ) : (Frac.ofInt n).toRat = (n : ℚ) := by
  simp [Frac.ofInt, Frac.toRat]

theorem Frac.toRat_add (x y : Frac) : (x + y).toRat = x.toRat + y.toRat := by
  show (x.add y).toRat = _
  unfold Frac.add Frac.toRat
  have hx := x.den_pos_q
  have hy := y.den_pos_q
  field_simp
  try push_cast
  try ring

theorem Frac.toRat_neg (x : Frac) : (-x).toRat = -x.toRat := by
  show x.neg.toRat = _
  unfold Frac.neg Frac.toRat
  push_cast
  ring

theorem Frac.toRat_sub (x y : Frac) : (x - y).toRat = x.toRat - y.toRat := by
  show (x.add y.neg).toRat = _
  rw [show x.add y.neg = x + (-y) from rfl, Frac.toRat_add, Frac.toRat_neg]
  ring

theorem Frac.toRat_mul (x y : Frac) : (x * y).toRat = x.toRat * y.toRat := by
  show (x.mul y).toRat = _
  unfold Frac.mul Frac.toRat
  have hx := x.den_pos_q
  have hy := y.den_pos_q
  field_simp
  try push_cast
  try ring

theorem Frac.toRat_div (x y : Frac) : (x / y).toRat = x.toRat / y.toRat := by
  show (x.div y).toRat = _
  unfold Frac.div Frac.toRat
  have hx := x.den_pos_q
  have hxden := x.den_ne_zero_q
  have hyden := y.den_ne_zero_q
  split_ifs with h1 h2
  · have hn : (y.num.toNat : ℤ) = y.num := Int.toNat_of_nonneg h1.le
    have e1 : ((x.den * y.num.toNat : ℕ) : ℚ) = (x.den : ℚ) * (y.num : ℚ) := by
      push_cast
      congr 1
      exact_mod_cast hn
    have hy0 : (y.num : ℚ) ≠ 0 := by exact_mod_cast h1.ne.symm
    simp only [e1]
    push_cast
    field_simp
    try ring
  · have hn : ((-y.num).toNat : ℤ) = -y.num := Int.toNat_of_nonneg (by omega)
    have e1 : ((x.den * (-y.num).toNat : ℕ) : ℚ) = (x.den : ℚ) * (-(y.num : ℚ)) := by
      push_cast
      congr 1
      exact_mod_cast hn
    have hy0 : (y.num : ℚ) ≠ 0 := by exact_mod_cast h2.ne
    simp only [e1]
    push_cast
    field_simp
    try ring
  · have hy0 : y.num = 0 := by omega
    simp [hy0]

theorem Frac.le_iff (x y : Frac) : x ≤ y ↔ x.toRat ≤ y.toRat := by
  show x.le y ↔ _
  unfold Frac.le Frac.toRat
  rw [div_le_div_iff x.den_pos_q y.den_pos_q]
  constructor <;> intro h <;> exact_mod_cast h

theorem Frac.lt_iff (x y : Frac) : x < y ↔ x.toRat < y.toRat := by
  show x.lt y ↔ _
  unfold Frac.lt Frac.toRat
  rw [div_lt_div_iff x.den_pos_q y.den_pos_q]
  constructor <;> intro h <;> exact_mod_cast h

theorem Frac.eqv_iff (x y : Frac) : x.eqv y ↔ x.toRat = y.toRat := by
  unfold Frac.eqv Frac.toRat
  rw [div_eq_div_iff x.den_ne_zero_q y.den_ne_zero_q]
  constructor <;> intro h <;> exact_mod_cast h

theorem Frac.floorI_eq (x : Frac) : x.floorI = ⌊x.toRat⌋ := by
  unfold Frac.floorI Frac.toRat
  rw [Int.fdiv_eq_ediv _ (by exact_mod_cast x.pos.le)]
  exact (Rat.floor_intCast_div_natCast x.num x.den).symm

theorem Frac.ceilI_eq (x : Frac) : x.ceilI = ⌈x.toRat⌉ := by
  have e1 : x.ceilI = -(x.neg.floorI) := rfl
  have e2 : x.neg.toRat = -x.toRat := Frac.toRat_neg x
  rw [e1, Frac.floorI_eq, e2, Int.floor_neg, neg_neg]

theorem Frac.toRat_absF (x : Frac) : x.absF.toRat = |x.toRat| := by
  unfold Frac.absF Frac.toRat
  rw [abs_div, abs_of_pos x.den_pos_q]
  push_cast
  rfl

/-! ## Loop characterization lemmas -/

theorem posLoop_ok (op : Bool → Bool → Bool) (b s : List Bool) (n : ℕ)
    (hn : n ≤ s.length) (hb : n ≤ b.length) :
    ∃ r : List Bool,
      (List.range n).foldlM (FVoxelData.posStep op b) s = .ok r ∧
      r.length = s.length ∧
      ∀ j : ℕ, r.getD j false =
        if j < n then op (s.getD j false) (b.getD j false) else s.getD j false := by
  induction n with
  | zero =>
    refine ⟨s, rfl, rfl, ?_⟩
    intro j
    simp
  | succ m ih =>
    obtain ⟨r, hr, hlen, hch⟩ := ih (Nat.le_of_succ_le hn) (Nat.le_of_succ_le hb)
    have hmb : m < b.length := hb
    have hms : m < r.length := by rw [hlen]; exact hn
    refine ⟨r.set m (op (r.getD m false) (b.get ⟨m, hmb⟩)), ?_, ?_, ?_⟩
    · rw [List.range_succ, List.foldlM_append, hr]
      simp [FVoxelData.posStep, hmb]
      rfl
    · rw [List.length_set, hlen]
    · intro j
      rcases Nat.lt_trichotomy j m with hj | hj | hj
      · rw [List.getD_eq_getElem?_getD, List.getElem?_set_ne (by omega),
          ← List.getD_eq_getElem?_getD, hch j, if_pos hj, if_pos (by omega)]
      · subst hj
        rw [if_pos (Nat.lt_succ_self j)]
        rw [List.getD_eq_getElem?_getD, List.getElem?_set_eq (by omega)]
        show op (r.getD j false) (b.get ⟨j, hmb⟩) = _
        rw [hch j, if_neg (by omega)]
        congr 1
        rw [List.getD_eq_getElem?_getD, List.getElem?_eq_getElem hmb]
        rfl
      · rw [List.getD_eq_getElem?_getD, List.getElem?_set_ne (by omega),
          ← List.getD_eq_getElem?_getD, hch j, if_neg (by omega), if_neg (by omega)]

theorem posLoop_err (op : Bool → Bool → Bool) (b s : List Bool) (n : ℕ)
    (hbs : b.length < n) (hbl : b.length ≤ s.length) :
    (List.range n).foldlM (FVoxelData.posStep op b) s = .error .rangeError := by
  induction n with
  | zero => omega
  | succ m ih =>
    rcases Nat.lt_or_ge b.length m with hm | hm
    · rw [List.range_succ, List.foldlM_append, ih hm]
      rfl
    · have hem : b.length = m := by omega
      obtain ⟨r, hr, hlen, hch⟩ := posLoop_ok op b s m (by omega) (by omega)
      rw [List.range_succ, List.foldlM_append, hr]
      show FVoxelData.posStep op b r m >>= _ = _
      unfold FVoxelData.posStep
      rw [dif_neg (by omega)]
      rfl

theorem exceptOkBind {e a b : Type} (x : a) (f : a → Except e b) :
    (Except.ok x >>= f) = f x := rfl

theorem orOffLoop_ok (tg og : FVoxelGrid) (off : FIntVector)
    (ocells s : List Bool) (n : ℕ)
    (hval : ∀ i : ℕ, i < n →
      og.IsVoxelIndexValid (i : ℤ) ∧
      tg.IsVoxelCoordinateValid (off + og.GetVoxelCoordinateI (i : ℤ)) ∧
      offTarget tg og off i < s.length) :
    ∃ r : List Bool,
      (List.range n).foldlM
        (FVoxelData.combStep (fun x y => x || y) tg og off ocells) s = .ok r ∧
      r.length = s.length ∧
      ∀ j : ℕ, r.getD j false =
        (s.getD j false ||
          (List.range n).any
            (fun i => ocells.getD i false && (offTarget tg og off i == j))) := by
  induction n with
  | zero =>
    refine ⟨s, rfl, rfl, ?_⟩
    intro j
    simp
  | succ m ih =>
    obtain ⟨r, hr, hlen, hch⟩ := ih (fun i hi => hval i (by omega))
    obtain ⟨hvi, hvc, hvs⟩ := hval m (Nat.lt_succ_self m)
    have hms : offTarget tg og off m < r.length := by rw [hlen]; exact hvs
    refine ⟨r.set (offTarget tg og off m)
      ((r.getD (offTarget tg og off m) false) || (ocells.getD m false)), ?_, ?_, ?_⟩
    · rw [List.range_succ, List.foldlM_append, hr]
      have hms2 : (tg.GetVoxelIndexC (off + og.GetVoxelCoordinateI (m : ℤ))).toNat <
          r.length := hms
      have hg : r.getD (offTarget tg og off m) false =
          r.get ⟨offTarget tg og off m, hms⟩ := by
        rw [List.getD_eq_getElem?_getD, List.getElem?_eq_getElem hms]
        rfl
      have e1 : og.GetVoxelCoordinateIE (m : ℤ) =
          Except.ok (og.GetVoxelCoordinateI (m : ℤ)) := by
        unfold FVoxelGrid.GetVoxelCoordinateIE
        exact if_pos hvi
      have e2 : tg.GetVoxelIndexCE (off + og.GetVoxelCoordinateI (m : ℤ)) =
          Except.ok (tg.GetVoxelIndexC (off + og.GetVoxelCoordinateI (m : ℤ))) := by
        unfold FVoxelGrid.GetVoxelIndexCE
        exact if_pos hvc
      simp only [List.foldlM_cons, List.foldlM_nil, exceptOkBind]
      unfold FVoxelData.combStep
      rw [e1]
      simp only [exceptOkBind]
      rw [e2]
      simp only [exceptOkBind]
      rw [dif_pos hms2]
      simp only [exceptOkBind]
      rw [hg]
      rfl
    · rw [List.length_set, hlen]
    · intro j
      rw [List.range_succ, List.any_append]
      simp only [List.any_cons, List.any_nil, Bool.or_false]
      by_cases hj : offTarget tg og off m = j
      · subst hj
        rw [List.getD_eq_getElem?_getD, List.getElem?_set_eq (by omega)]
        show (r.getD _ false || ocells.getD m false) = _
        rw [hch]
        simp [Bool.or_assoc]
      · rw [List.getD_eq_getElem?_getD, List.getElem?_set_ne (by omega),
          ← List.getD_eq_getElem?_getD, hch j]
        have : (offTarget tg og off m == j) = false := by
          simp [hj]
        rw [this]
        simp

/-! ## Linearization arithmetic -/

theorem linIdx_bounds (nx ny nz x y z : ℤ)
    (hx0 : 0 ≤ x) (hx1 : x < nx) (hy0 : 0 ≤ y) (hy1 : y < ny)
    (hz0 : 0 ≤ z) (hz1 : z < nz) :
    0 ≤ x + y * nx + z * nx * ny ∧ x + y * nx + z * nx * ny < nx * ny * nz := by
  have hnx : 0 < nx := by omega
  have hny : 0 < ny := by omega
  constructor
  · have h1 : 0 ≤ y * nx := mul_nonneg hy0 hnx.le
    have h2 : 0 ≤ z * nx * ny := by positivity
    omega
  · have h1 : y * nx ≤ (ny - 1) * nx := mul_le_mul_of_nonneg_right (by omega) hnx.le
    have h2 : z * (nx * ny) ≤ (nz - 1) * (nx * ny) :=
      mul_le_mul_of_nonneg_right (by omega) (by positivity)
    have h3 : z * nx * ny = z * (nx * ny) := by ring
    have h4 : (nx - 1) + (ny - 1) * nx + (nz - 1) * (nx * ny) = nx * ny * nz - 1 := by ring
    omega


theorem coordI_inv (nx ny x y z : ℤ) (hnx : 0 < nx) (hny : 0 < ny)
    (hx0 : 0 ≤ x) (hx1 : x < nx) (hy0 : 0 ≤ y) (hy1 : y < ny) (hz0 : 0 ≤ z) :
    Int.tdiv (x + y * nx + z * nx * ny) (nx * ny) = z ∧
    Int.tdiv (x + y * nx + z * nx * ny - z * nx * ny) nx = y ∧
    x + y * nx + z * nx * ny - z * nx * ny - y * nx = x := by
  have hnxy : (0:ℤ) < nx * ny := by positivity
  have hxy0 : 0 ≤ x + y * nx := by
    have : 0 ≤ y * nx := mul_nonneg hy0 hnx.le
    omega
  have hxy1 : x + y * nx < nx * ny := by
    have h1 : y * nx ≤ (ny - 1) * nx := mul_le_mul_of_nonneg_right (by omega) hnx.le
    have h2 : (nx - 1) + (ny - 1) * nx = nx * ny - 1 := by ring
    omega
  have hi0 : 0 ≤ x + y * nx + z * nx * ny := by
    have : 0 ≤ z * nx * ny := by positivity
    omega
  have e1 : Int.tdiv (x + y * nx + z * nx * ny) (nx * ny) = z := by
    rw [Int.div_eq_ediv hi0 hnxy.le]
    have e : x + y * nx + z * nx * ny = (x + y * nx) + z * (nx * ny) := by ring
    rw [e, Int.add_mul_ediv_right _ _ hnxy.ne.symm,
      Int.ediv_eq_zero_of_lt hxy0 hxy1]
    ring
  refine ⟨e1, ?_, ?_⟩
  · have e : x + y * nx + z * nx * ny - z * nx * ny = x + y * nx := by ring
    rw [e, Int.div_eq_ediv hxy0 hnx.le, Int.add_mul_ediv_right _ _ hnx.ne.symm,
      Int.ediv_eq_zero_of_lt hx0 hx1]
    ring
  · ring

theorem gridIndexC_spec (g : FVoxelGrid) (c : FIntVector)
    (hc : g.IsVoxelCoordinateValid c) :
    g.IsVoxelIndexValid (g.GetVoxelIndexC c) ∧
    g.GetVoxelCoordinateI (g.GetVoxelIndexC c) = c := by
  obtain ⟨cx, cy, cz⟩ := c
  obtain ⟨hx0, hx1, hy0, hy1, hz0, hz1⟩ := hc
  have hnx : 0 < g.VoxelCount.X := by omega
  have hny : 0 < g.VoxelCount.Y := by omega
  have hb := linIdx_bounds g.VoxelCount.X g.VoxelCount.Y g.VoxelCount.Z
    cx cy cz hx0 hx1 hy0 hy1 hz0 hz1
  obtain ⟨e1, e2, e3⟩ := coordI_inv g.VoxelCount.X g.VoxelCount.Y
    cx cy cz hnx hny hx0 hx1 hy0 hy1 hz0
  constructor
  · exact ⟨hb.1, hb.2⟩
  · show FVoxelGrid.GetVoxelCoordinateI g (cx + cy * g.VoxelCount.X +
      cz * g.VoxelCount.X * g.VoxelCount.Y) = _
    unfold FVoxelGrid.GetVoxelCoordinateI
    simp only [e1, e2, e3]

theorem gridCoordI_spec (g : FVoxelGrid) (i : ℤ)
    (hi : g.IsVoxelIndexValid i)
    (hnn : 0 ≤ g.VoxelCount.X ∧ 0 ≤ g.VoxelCount.Y ∧ 0 ≤ g.VoxelCount.Z) :
    g.IsVoxelCoordinateValid (g.GetVoxelCoordinateI i) ∧
    g.GetVoxelIndexC (g.GetVoxelCoordinateI i) = i := by
  obtain ⟨hi0, hiU⟩ := hi
  obtain ⟨hnx0, hny0, hnz0⟩ := hnn
  have htot : i < g.VoxelCount.X * g.VoxelCount.Y * g.VoxelCount.Z := hiU
  have hnx : 0 < g.VoxelCount.X := by
    by_contra h
    have h0 : g.VoxelCount.X = 0 := by omega
    rw [h0] at htot
    simp at htot
    omega
  have hny : 0 < g.VoxelCount.Y := by
    by_contra h
    have h0 : g.VoxelCount.Y = 0 := by omega
    rw [h0] at htot
    simp at htot
    omega
  have hnz : 0 < g.VoxelCount.Z := by
    by_contra h
    have h0 : g.VoxelCount.Z = 0 := by omega
    rw [h0] at htot
    simp at htot
    omega
  have hnxy : (0:ℤ) < g.VoxelCount.X * g.VoxelCount.Y := by positivity
  have hzv : Int.tdiv i (g.VoxelCount.X * g.VoxelCount.Y) =
      i / (g.VoxelCount.X * g.VoxelCount.Y) := Int.div_eq_ediv hi0 hnxy.le
  have hz0 : 0 ≤ i / (g.VoxelCount.X * g.VoxelCount.Y) := Int.ediv_nonneg hi0 hnxy.le
  have hz1 : i / (g.VoxelCount.X * g.VoxelCount.Y) < g.VoxelCount.Z := by
    rw [Int.ediv_lt_iff_lt_mul hnxy]
    calc i < g.VoxelCount.X * g.VoxelCount.Y * g.VoxelCount.Z := htot
    _ = g.VoxelCount.Z * (g.VoxelCount.X * g.VoxelCount.Y) := by ring
  have hrdef : i - i / (g.VoxelCount.X * g.VoxelCount.Y) * g.VoxelCount.X *
      g.VoxelCount.Y = i % (g.VoxelCount.X * g.VoxelCount.Y) := by
    rw [Int.emod_def]
    ring
  have hr0 : 0 ≤ i % (g.VoxelCount.X * g.VoxelCount.Y) := Int.emod_nonneg i hnxy.ne.symm
  have hr1 : i % (g.VoxelCount.X * g.VoxelCount.Y) < g.VoxelCount.X * g.VoxelCount.Y :=
    Int.emod_lt_of_pos i hnxy
  have hyv : Int.tdiv (i % (g.VoxelCount.X * g.VoxelCount.Y)) g.VoxelCount.X =
      (i % (g.VoxelCount.X * g.VoxelCount.Y)) / g.VoxelCount.X :=
    Int.div_eq_ediv hr0 hnx.le
  have hy0 : 0 ≤ (i % (g.VoxelCount.X * g.VoxelCount.Y)) / g.VoxelCount.X :=
    Int.ediv_nonneg hr0 hnx.le
  have hy1 : (i % (g.VoxelCount.X * g.VoxelCount.Y)) / g.VoxelCount.X < g.VoxelCount.Y := by
    rw [Int.ediv_lt_iff_lt_mul hnx]
    calc i % (g.VoxelCount.X * g.VoxelCount.Y) < g.VoxelCount.X * g.VoxelCount.Y := hr1
    _ = g.VoxelCount.Y * g.VoxelCount.X := by ring
  have hxdef : i % (g.VoxelCount.X * g.VoxelCount.Y) -
      (i % (g.VoxelCount.X * g.VoxelCount.Y)) / g.VoxelCount.X * g.VoxelCount.X =
      (i % (g.VoxelCount.X * g.VoxelCount.Y)) % g.VoxelCount.X := by
    rw [Int.emod_def (i % (g.VoxelCount.X * g.VoxelCount.Y)) g.VoxelCount.X]
    ring
  have hx0 : 0 ≤ (i % (g.VoxelCount.X * g.VoxelCount.Y)) % g.VoxelCount.X :=
    Int.emod_nonneg _ hnx.ne.symm
  have hx1 : (i % (g.VoxelCount.X * g.VoxelCount.Y)) % g.VoxelCount.X < g.VoxelCount.X :=
    Int.emod_lt_of_pos _ hnx
  have hcoord : g.GetVoxelCoordinateI i =
      ⟨(i % (g.VoxelCount.X * g.VoxelCount.Y)) % g.VoxelCount.X,
       (i % (g.VoxelCount.X * g.VoxelCount.Y)) / g.VoxelCount.X,
       i / (g.VoxelCount.X * g.VoxelCount.Y)⟩ := by
    unfold FVoxelGrid.GetVoxelCoordinateI
    simp only [hzv, hrdef, hyv, hxdef]
  rw [hcoord]
  constructor
  · exact ⟨hx0, hx1, hy0, hy1, hz0, hz1⟩
  · show (i % (g.VoxelCount.X * g.VoxelCount.Y)) % g.VoxelCount.X +
      (i % (g.VoxelCount.X * g.VoxelCount.Y)) / g.VoxelCount.X * g.VoxelCount.X +
      i / (g.VoxelCount.X * g.VoxelCount.Y) * g.VoxelCount.X * g.VoxelCount.Y = i
    have e1 : (i % (g.VoxelCount.X * g.VoxelCount.Y)) % g.VoxelCount.X +
        (i % (g.VoxelCount.X * g.VoxelCount.Y)) / g.VoxelCount.X * g.VoxelCount.X =
        i % (g.VoxelCount.X * g.VoxelCount.Y) := by
      rw [Int.emod_def (i % (g.VoxelCount.X * g.VoxelCount.Y)) g.VoxelCount.X]
      ring
    rw [e1, Int.emod_def]
    ring

/-! ## Snapping arithmetic over ℚ -/

attribute [simp] Frac.toRat_add Frac.toRat_sub Frac.toRat_neg Frac.toRat_mul
  Frac.toRat_div Frac.toRat_ofInt Frac.floorI_eq Frac.ceilI_eq Frac.toRat_absF

theorem qsnap_floor_le (s m : ℚ) (hs : 0 < s) : (⌊m / s⌋ : ℚ) * s ≤ m := by
  calc (⌊m / s⌋ : ℚ) * s ≤ (m / s) * s :=
        mul_le_mul_of_nonneg_right (Int.floor_le _) hs.le
  _ = m := div_mul_cancel₀ m hs.ne.symm

theorem qsnap_le_ceil (s M : ℚ) (hs : 0 < s) : M ≤ (⌈M / s⌉ : ℚ) * s := by
  calc M = (M / s) * s := (div_mul_cancel₀ M hs.ne.symm).symm
  _ ≤ (⌈M / s⌉ : ℚ) * s := mul_le_mul_of_nonneg_right (Int.le_ceil _) hs.le

theorem qsnap_cnt (s m M : ℚ) (hs : 0 < s) :
    ⌈((⌈M / s⌉ : ℚ) * s - (⌊m / s⌋ : ℚ) * s) / s⌉ = ⌈M / s⌉ - ⌊m / s⌋ := by
  have e : ((⌈M / s⌉ : ℚ) * s - (⌊m / s⌋ : ℚ) * s) / s =
      ((⌈M / s⌉ - ⌊m / s⌋ : ℤ) : ℚ) := by
    rw [div_eq_iff hs.ne.symm]
    push_cast
    ring
  rw [e, Int.ceil_intCast]

theorem qcoord_nonneg (s a x : ℚ) (hs : 0 < s) (h : a ≤ x) : 0 ≤ ⌊(x - a) / s⌋ :=
  Int.floor_nonneg.mpr (div_nonneg (by linarith) hs.le)

theorem qcoord_lt (s m M x : ℚ) (hs : 0 < s) (hx : x < (⌈M / s⌉ : ℚ) * s) :
    ⌊(x - (⌊m / s⌋ : ℚ) * s) / s⌋ < ⌈M / s⌉ - ⌊m / s⌋ := by
  rw [Int.floor_lt]
  rw [div_lt_iff hs]
  push_cast
  linarith

theorem qoff_floor (s gm bm : ℚ) (hs : 0 < s) :
    ⌊(bm - (⌊gm / s⌋ : ℚ) * s) / s⌋ = ⌊bm / s⌋ - ⌊gm / s⌋ := by
  rw [sub_div, mul_div_cancel_right₀ _ hs.ne.symm, Int.floor_sub_int]

theorem qfloor_mono_of_le (s gm bm : ℚ) (hs : 0 < s)
    (h : (⌊gm / s⌋ : ℚ) * s ≤ bm) : ⌊gm / s⌋ ≤ ⌊bm / s⌋ := by
  apply Int.le_floor.mpr
  rw [le_div_iff hs]
  exact h

theorem qceil_mono_of_le (s gM bM : ℚ) (hs : 0 < s)
    (h : bM ≤ (⌈gM / s⌉ : ℚ) * s) : ⌈bM / s⌉ ≤ ⌈gM / s⌉ := by
  apply Int.ceil_le.mpr
  rw [div_le_iff hs]
  exact h

theorem Frac.toRat_zero : (0 : Frac).toRat = 0 := by
  show (Frac.ofInt 0).toRat = 0
  simp

theorem Frac.toRat_one : (1 : Frac).toRat = 1 := by
  show (Frac.ofInt 1).toRat = 1
  simp

attribute [simp] Frac.toRat_zero Frac.toRat_one

/-- C3: for every positive per-axis cell size and every input box, the
grid produced by `Init(cellSize, bounds)` has bounds whose min and max are
exact multiples of the cell size on every axis (floor-snap on min,
ceil-snap on max), and the snapped bounds contain the original box. -/
theorem claimC3_construct_snaps (s : FVector) (b : FBox)
    (hsx : (0 : Frac) < s.X) (hsy : (0 : Frac) < s.Y) (hsz : (0 : Frac) < s.Z)
    (hbx : b.Min.X ≤ b.Max.X) (hby : b.Min.Y ≤ b.Max.Y) (hbz : b.Min.Z ≤ b.Max.Z) :
    (∃ k : ℤ, ((FVoxelGrid.Init s b).Bounds.Min.X).eqv (Frac.ofInt k * s.X)) ∧
    (∃ k : ℤ, ((FVoxelGrid.Init s b).Bounds.Min.Y).eqv (Frac.ofInt k * s.Y)) ∧
    (∃ k : ℤ, ((FVoxelGrid.Init s b).Bounds.Min.Z).eqv (Frac.ofInt k * s.Z)) ∧
    (∃ k : ℤ, ((FVoxelGrid.Init s b).Bounds.Max.X).eqv (Frac.ofInt k * s.X)) ∧
    (∃ k : ℤ, ((FVoxelGrid.Init s b).Bounds.Max.Y).eqv (Frac.ofInt k * s.Y)) ∧
    (∃ k : ℤ, ((FVoxelGrid.Init s b).Bounds.Max.Z).eqv (Frac.ofInt k * s.Z)) ∧
    (FVoxelGrid.Init s b).Bounds.IsInsideOrOnB b := by
  rw [Frac.lt_iff] at hsx hsy hsz
  rw [Frac.toRat_zero] at hsx hsy hsz
  rw [Frac.le_iff] at hbx hby hbz
  refine ⟨⟨⌊b.Min.X.toRat / s.X.toRat⌋, ?_⟩, ⟨⌊b.Min.Y.toRat / s.Y.toRat⌋, ?_⟩,
    ⟨⌊b.Min.Z.toRat / s.Z.toRat⌋, ?_⟩, ⟨⌈b.Max.X.toRat / s.X.toRat⌉, ?_⟩,
    ⟨⌈b.Max.Y.toRat / s.Y.toRat⌉, ?_⟩, ⟨⌈b.Max.Z.toRat / s.Z.toRat⌉, ?_⟩, ?_⟩
  · rw [Frac.eqv_iff]; simp [FVoxelGrid.Init]
  · rw [Frac.eqv_iff]; simp [FVoxelGrid.Init]
  · rw [Frac.eqv_iff]; simp [FVoxelGrid.Init]
  · rw [Frac.eqv_iff]; simp [FVoxelGrid.Init]
  · rw [Frac.eqv_iff]; simp [FVoxelGrid.Init]
  · rw [Frac.eqv_iff]; simp [FVoxelGrid.Init]
  · unfold FBox.IsInsideOrOnB FBox.IsInsideOrOnV
    simp only [Frac.le_iff]
    simp [FVoxelGrid.Init]
    refine ⟨⟨?_, ?_, ?_, ?_, ?_, ?_⟩, ?_, ?_, ?_, ?_, ?_, ?_⟩
    · exact qsnap_floor_le _ _ hsx
    · have h1 := qsnap_le_ceil s.X.toRat b.Max.X.toRat hsx
      linarith
    · exact qsnap_floor_le _ _ hsy
    · have h1 := qsnap_le_ceil s.Y.toRat b.Max.Y.toRat hsy
      linarith
    · exact qsnap_floor_le _ _ hsz
    · have h1 := qsnap_le_ceil s.Z.toRat b.Max.Z.toRat hsz
      linarith
    · have h1 := qsnap_floor_le s.X.toRat b.Min.X.toRat hsx
      linarith
    · exact qsnap_le_ceil _ _ hsx
    · have h1 := qsnap_floor_le s.Y.toRat b.Min.Y.toRat hsy
      linarith
    · exact qsnap_le_ceil _ _ hsy
    · have h1 := qsnap_floor_le s.Z.toRat b.Min.Z.toRat hsz
      linarith
    · exact qsnap_le_ceil _ _ hsz

theorem claimC3_construct_snaps_witness :
    ((0 : Frac) < (1 : Frac) ∧ (0 : Frac) ≤ (⟨3, 2, Nat.succ_pos 1⟩ : Frac)) ∧
    ((∃ k : ℤ, ((FVoxelGrid.Init ⟨1, 1, 1⟩
        ⟨⟨0, 0, 0⟩, ⟨⟨3, 2, Nat.succ_pos 1⟩, 2, 2⟩⟩).Bounds.Min.X).eqv
        (Frac.ofInt k * (1 : Frac))) ∧
     (∃ k : ℤ, ((FVoxelGrid.Init ⟨1, 1, 1⟩
        ⟨⟨0, 0, 0⟩, ⟨⟨3, 2, Nat.succ_pos 1⟩, 2, 2⟩⟩).Bounds.Min.Y).eqv
        (Frac.ofInt k * (1 : Frac))) ∧
     (∃ k : ℤ, ((FVoxelGrid.Init ⟨1, 1, 1⟩
        ⟨⟨0, 0, 0⟩, ⟨⟨3, 2, Nat.succ_pos 1⟩, 2, 2⟩⟩).Bounds.Min.Z).eqv
        (Frac.ofInt k * (1 : Frac))) ∧
     (∃ k : ℤ, ((FVoxelGrid.Init ⟨1, 1, 1⟩
        ⟨⟨0, 0, 0⟩, ⟨⟨3, 2, Nat.succ_pos 1⟩, 2, 2⟩⟩).Bounds.Max.X).eqv
        (Frac.ofInt k * (1 : Frac))) ∧
     (∃ k : ℤ, ((FVoxelGrid.Init ⟨1, 1, 1⟩
        ⟨⟨0, 0, 0⟩, ⟨⟨3, 2, Nat.succ_pos 1⟩, 2, 2⟩⟩).Bounds.Max.Y).eqv
        (Frac.ofInt k * (1 : Frac))) ∧
     (∃ k : ℤ, ((FVoxelGrid.Init ⟨1, 1, 1⟩
        ⟨⟨0, 0, 0⟩, ⟨⟨3, 2, Nat.succ_pos 1⟩, 2, 2⟩⟩).Bounds.Max.Z).eqv
        (Frac.ofInt k * (1 : Frac))) ∧
     (FVoxelGrid.Init ⟨1, 1, 1⟩
        ⟨⟨0, 0, 0⟩, ⟨⟨3, 2, Nat.succ_pos 1⟩, 2, 2⟩⟩).Bounds.IsInsideOrOnB
        ⟨⟨0, 0, 0⟩, ⟨⟨3, 2, Nat.succ_pos 1⟩, 2, 2⟩⟩) :=
  ⟨by decide,
   claimC3_construct_snaps ⟨1, 1, 1⟩ ⟨⟨0, 0, 0⟩, ⟨⟨3, 2, Nat.succ_pos 1⟩, 2, 2⟩⟩
     (by decide) (by decide) (by decide) (by decide) (by decide) (by decide)⟩

/-- C10: grid equality compares only cell size and bounds; a sub-grid of a
parent (offset set) and a grid built directly from the same raw bounds
(offset unset) compare equal under `operator==`. -/
theorem claimC10_eq_ignores_offset (parent : FVoxelGrid) (b : FBox) :
    (parent.GetSubGrid b).eqOp (FVoxelGrid.Init parent.VoxelSize b) ∧
    (parent.GetSubGrid b).Offset.isSome = true ∧
    (FVoxelGrid.Init parent.VoxelSize b).Offset = none := by
  refine ⟨?_, rfl, rfl⟩
  unfold FVoxelGrid.GetSubGrid FVoxelGrid.InitSub FVoxelGrid.eqOp
  constructor
  · show (FVoxelGrid.Init parent.VoxelSize b).VoxelSize.eqv
      (FVoxelGrid.Init parent.VoxelSize b).VoxelSize
    unfold FVector.eqv
    exact ⟨rfl, rfl, rfl⟩
  · show (FVoxelGrid.Init parent.VoxelSize b).Bounds.eqv
      (FVoxelGrid.Init parent.VoxelSize b).Bounds
    unfold FBox.eqv FVector.eqv
    exact ⟨⟨rfl, rfl, rfl⟩, rfl, rfl, rfl⟩

/-- C9 fails as stated: in the unit grid over `[(0,0,0),(1,1,1)]` the
location `(1,1,1)` is inside the bounds (boundary inclusive) and has at
least one cell, yet `GetVoxelIndex` returns 3, which is not a valid index
of the 1-cell grid. -/
theorem claimC9_counterexample :
    (FVoxelGrid.Init ⟨1, 1, 1⟩ ⟨⟨0, 0, 0⟩, ⟨1, 1, 1⟩⟩).IsLocationInBounds ⟨1, 1, 1⟩ ∧
    1 ≤ (FVoxelGrid.Init ⟨1, 1, 1⟩ ⟨⟨0, 0, 0⟩, ⟨1, 1, 1⟩⟩).GetVoxelCount ∧
    (FVoxelGrid.Init ⟨1, 1, 1⟩ ⟨⟨0, 0, 0⟩, ⟨1, 1, 1⟩⟩).GetVoxelIndexLE ⟨1, 1, 1⟩ =
      .ok 3 ∧
    ¬ (FVoxelGrid.Init ⟨1, 1, 1⟩ ⟨⟨0, 0, 0⟩, ⟨1, 1, 1⟩⟩).IsVoxelIndexValid 3 := by
  decide

/-- C9 amended: for a grid built by `Init` with positive cell sizes,
`IndexOf(worldLocation)` succeeds with a valid index for every location
with `min ≤ loc` and `loc < max` strictly on each axis (locations exactly
on the max face pass the inclusive bounds check but produce an
out-of-range index, see the counterexample); locations outside the bounds
fail with `OutOfBounds`. -/
theorem claimC9_amended (s : FVector) (b : FBox) (loc : FVector)
    (hsx : (0 : Frac) < s.X) (hsy : (0 : Frac) < s.Y) (hsz : (0 : Frac) < s.Z)
    (hlx : (FVoxelGrid.Init s b).Bounds.Min.X ≤ loc.X)
    (hly : (FVoxelGrid.Init s b).Bounds.Min.Y ≤ loc.Y)
    (hlz : (FVoxelGrid.Init s b).Bounds.Min.Z ≤ loc.Z)
    (hux : loc.X < (FVoxelGrid.Init s b).Bounds.Max.X)
    (huy : loc.Y < (FVoxelGrid.Init s b).Bounds.Max.Y)
    (huz : loc.Z < (FVoxelGrid.Init s b).Bounds.Max.Z) :
    (FVoxelGrid.Init s b).GetVoxelIndexLE loc =
      .ok ((FVoxelGrid.Init s b).GetVoxelIndexL loc) ∧
    (FVoxelGrid.Init s b).IsVoxelIndexValid ((FVoxelGrid.Init s b).GetVoxelIndexL loc) ∧
    (∀ l2 : FVector, ¬ (FVoxelGrid.Init s b).IsLocationInBounds l2 →
      (FVoxelGrid.Init s b).GetVoxelIndexLE l2 = .error .outOfBounds) := by
  rw [Frac.lt_iff, Frac.toRat_zero] at hsx hsy hsz
  have hloc : (FVoxelGrid.Init s b).IsLocationInBounds loc := by
    refine ⟨hlx, ?_, hly, ?_, hlz, ?_⟩
    · rw [Frac.le_iff]; rw [Frac.lt_iff] at hux; linarith
    · rw [Frac.le_iff]; rw [Frac.lt_iff] at huy; linarith
    · rw [Frac.le_iff]; rw [Frac.lt_iff] at huz; linarith
  rw [Frac.le_iff] at hlx hly hlz
  rw [Frac.lt_iff] at hux huy huz
  refine ⟨?_, ?_, ?_⟩
  · unfold FVoxelGrid.GetVoxelIndexLE
    rw [if_pos hloc]
  · -- the recomputed per-axis counts in GetVoxelIndexL coincide with the
    -- stored VoxelCount on an Init grid
    have hcx : (((FVoxelGrid.Init s b).Bounds.Max.X -
        (FVoxelGrid.Init s b).Bounds.Min.X) / (FVoxelGrid.Init s b).VoxelSize.X).ceilI =
        (FVoxelGrid.Init s b).VoxelCount.X := rfl
    have hcy : (((FVoxelGrid.Init s b).Bounds.Max.Y -
        (FVoxelGrid.Init s b).Bounds.Min.Y) / (FVoxelGrid.Init s b).VoxelSize.Y).ceilI =
        (FVoxelGrid.Init s b).VoxelCount.Y := rfl
    have hidx : (FVoxelGrid.Init s b).GetVoxelIndexL loc =
        ((loc.X - (FVoxelGrid.Init s b).Bounds.Min.X) /
          (FVoxelGrid.Init s b).VoxelSize.X).floorI +
        ((loc.Y - (FVoxelGrid.Init s b).Bounds.Min.Y) /
          (FVoxelGrid.Init s b).VoxelSize.Y).floorI * (FVoxelGrid.Init s b).VoxelCount.X +
        ((loc.Z - (FVoxelGrid.Init s b).Bounds.Min.Z) /
          (FVoxelGrid.Init s b).VoxelSize.Z).floorI * (FVoxelGrid.Init s b).VoxelCount.X *
          (FVoxelGrid.Init s b).VoxelCount.Y := by
      unfold FVoxelGrid.GetVoxelIndexL
      rw [hcx, hcy]
    have hX0 : 0 ≤ ((loc.X - (FVoxelGrid.Init s b).Bounds.Min.X) /
        (FVoxelGrid.Init s b).VoxelSize.X).floorI := by
      simp [FVoxelGrid.Init]
      exact qcoord_nonneg _ _ _ hsx (by simpa [FVoxelGrid.Init] using hlx)
    have hY0 : 0 ≤ ((loc.Y - (FVoxelGrid.Init s b).Bounds.Min.Y) /
        (FVoxelGrid.Init s b).VoxelSize.Y).floorI := by
      simp [FVoxelGrid.Init]
      exact qcoord_nonneg _ _ _ hsy (by simpa [FVoxelGrid.Init] using hly)
    have hZ0 : 0 ≤ ((loc.Z - (FVoxelGrid.Init s b).Bounds.Min.Z) /
        (FVoxelGrid.Init s b).VoxelSize.Z).floorI := by
      simp [FVoxelGrid.Init]
      exact qcoord_nonneg _ _ _ hsz (by simpa [FVoxelGrid.Init] using hlz)
    have hX1 : ((loc.X - (FVoxelGrid.Init s b).Bounds.Min.X) /
        (FVoxelGrid.Init s b).VoxelSize.X).floorI < (FVoxelGrid.Init s b).VoxelCount.X := by
      simp only [FVoxelGrid.Init, Frac.floorI_eq, Frac.ceilI_eq, Frac.toRat_sub,
        Frac.toRat_div, Frac.toRat_mul, Frac.toRat_ofInt]
      rw [qsnap_cnt _ _ _ hsx]
      exact qcoord_lt _ _ _ _ hsx (by simpa [FVoxelGrid.Init] using hux)
    have hY1 : ((loc.Y - (FVoxelGrid.Init s b).Bounds.Min.Y) /
        (FVoxelGrid.Init s b).VoxelSize.Y).floorI < (FVoxelGrid.Init s b).VoxelCount.Y := by
      simp only [FVoxelGrid.Init, Frac.floorI_eq, Frac.ceilI_eq, Frac.toRat_sub,
        Frac.toRat_div, Frac.toRat_mul, Frac.toRat_ofInt]
      rw [qsnap_cnt _ _ _ hsy]
      exact qcoord_lt _ _ _ _ hsy (by simpa [FVoxelGrid.Init] using huy)
    have hZ1 : ((loc.Z - (FVoxelGrid.Init s b).Bounds.Min.Z) /
        (FVoxelGrid.Init s b).VoxelSize.Z).floorI < (FVoxelGrid.Init s b).VoxelCount.Z := by
      simp only [FVoxelGrid.Init, Frac.floorI_eq, Frac.ceilI_eq, Frac.toRat_sub,
        Frac.toRat_div, Frac.toRat_mul, Frac.toRat_ofInt]
      rw [qsnap_cnt _ _ _ hsz]
      exact qcoord_lt _ _ _ _ hsz (by simpa [FVoxelGrid.Init] using huz)
    have hb := linIdx_bounds (FVoxelGrid.Init s b).VoxelCount.X
      (FVoxelGrid.Init s b).VoxelCount.Y (FVoxelGrid.Init s b).VoxelCount.Z
      _ _ _ hX0 hX1 hY0 hY1 hZ0 hZ1
    rw [hidx]
    exact ⟨hb.1, hb.2⟩
  · intro l2 h2
    unfold FVoxelGrid.GetVoxelIndexLE
    rw [if_neg h2]

theorem claimC9_amended_witness :
    ((0 : Frac) < (1 : Frac) ∧
     (FVoxelGrid.Init ⟨1, 1, 1⟩ ⟨⟨0, 0, 0⟩, ⟨2, 2, 2⟩⟩).Bounds.Min.X ≤ (1 : Frac) ∧
     (1 : Frac) < (FVoxelGrid.Init ⟨1, 1, 1⟩ ⟨⟨0, 0, 0⟩, ⟨2, 2, 2⟩⟩).Bounds.Max.X) ∧
    ((FVoxelGrid.Init ⟨1, 1, 1⟩ ⟨⟨0, 0, 0⟩, ⟨2, 2, 2⟩⟩).GetVoxelIndexLE ⟨1, 1, 1⟩ =
      .ok ((FVoxelGrid.Init ⟨1, 1, 1⟩ ⟨⟨0, 0, 0⟩, ⟨2, 2, 2⟩⟩).GetVoxelIndexL ⟨1, 1, 1⟩) ∧
     (FVoxelGrid.Init ⟨1, 1, 1⟩ ⟨⟨0, 0, 0⟩, ⟨2, 2, 2⟩⟩).IsVoxelIndexValid
      ((FVoxelGrid.Init ⟨1, 1, 1⟩ ⟨⟨0, 0, 0⟩, ⟨2, 2, 2⟩⟩).GetVoxelIndexL ⟨1, 1, 1⟩)) :=
  ⟨by decide,
   (claimC9_amended ⟨1, 1, 1⟩ ⟨⟨0, 0, 0⟩, ⟨2, 2, 2⟩⟩ ⟨1, 1, 1⟩
     (by decide) (by decide) (by decide) (by decide) (by decide) (by decide)
     (by decide) (by decide) (by decide)).1,
   (claimC9_amended ⟨1, 1, 1⟩ ⟨⟨0, 0, 0⟩, ⟨2, 2, 2⟩⟩ ⟨1, 1, 1⟩
     (by decide) (by decide) (by decide) (by decide) (by decide) (by decide)
     (by decide) (by decide) (by decide)).2.1⟩

/-- C2: index/coordinate conversion is a bijection between valid
coordinates and valid indices: converting a valid coordinate to its
linear index and back, or a valid linear index to its coordinate and
back, is the identity (guards included). -/
theorem claimC2_roundtrip (g : FVoxelGrid) (c : FIntVector) (i : ℤ)
    (hc : g.IsVoxelCoordinateValid c) (hi : g.IsVoxelIndexValid i)
    (hnn : 0 ≤ g.VoxelCount.X ∧ 0 ≤ g.VoxelCount.Y ∧ 0 ≤ g.VoxelCount.Z) :
    (g.GetVoxelIndexCE c >>= g.GetVoxelCoordinateIE) = .ok c ∧
    (g.GetVoxelCoordinateIE i >>= g.GetVoxelIndexCE) = .ok i := by
  obtain ⟨hvi, hrt⟩ := gridIndexC_spec g c hc
  obtain ⟨hvc, hrt2⟩ := gridCoordI_spec g i hi hnn
  constructor
  · have e1 : g.GetVoxelIndexCE c = .ok (g.GetVoxelIndexC c) := by
      unfold FVoxelGrid.GetVoxelIndexCE
      exact if_pos hc
    rw [e1, exceptOkBind]
    unfold FVoxelGrid.GetVoxelCoordinateIE
    rw [if_pos hvi, hrt]
  · have e1 : g.GetVoxelCoordinateIE i = .ok (g.GetVoxelCoordinateI i) := by
      unfold FVoxelGrid.GetVoxelCoordinateIE
      exact if_pos hi
    rw [e1, exceptOkBind]
    unfold FVoxelGrid.GetVoxelIndexCE
    rw [if_pos hvc, hrt2]

theorem claimC2_roundtrip_witness :
    ((FVoxelGrid.Init ⟨1, 1, 1⟩ ⟨⟨0, 0, 0⟩, ⟨2, 2, 2⟩⟩).IsVoxelCoordinateValid ⟨1, 1, 1⟩ ∧
     (FVoxelGrid.Init ⟨1, 1, 1⟩ ⟨⟨0, 0, 0⟩, ⟨2, 2, 2⟩⟩).IsVoxelIndexValid 7) ∧
    (((FVoxelGrid.Init ⟨1, 1, 1⟩ ⟨⟨0, 0, 0⟩, ⟨2, 2, 2⟩⟩).GetVoxelIndexCE ⟨1, 1, 1⟩ >>=
        (FVoxelGrid.Init ⟨1, 1, 1⟩ ⟨⟨0, 0, 0⟩, ⟨2, 2, 2⟩⟩).GetVoxelCoordinateIE) =
      .ok ⟨1, 1, 1⟩ ∧
     ((FVoxelGrid.Init ⟨1, 1, 1⟩ ⟨⟨0, 0, 0⟩, ⟨2, 2, 2⟩⟩).GetVoxelCoordinateIE 7 >>=
        (FVoxelGrid.Init ⟨1, 1, 1⟩ ⟨⟨0, 0, 0⟩, ⟨2, 2, 2⟩⟩).GetVoxelIndexCE) = .ok 7) :=
  ⟨by decide,
   claimC2_roundtrip (FVoxelGrid.Init ⟨1, 1, 1⟩ ⟨⟨0, 0, 0⟩, ⟨2, 2, 2⟩⟩) ⟨1, 1, 1⟩ 7
     (by decide) (by decide) (by decide)⟩

theorem Frac.le_refl (x : Frac) : x ≤ x := by
  show x.le x
  unfold Frac.le
  exact le_rfl

theorem gridInside_self (g : FVoxelGrid)
    (h1 : g.Bounds.Min.X ≤ g.Bounds.Max.X) (h2 : g.Bounds.Min.Y ≤ g.Bounds.Max.Y)
    (h3 : g.Bounds.Min.Z ≤ g.Bounds.Max.Z) : g.IsGridInside g := by
  unfold FVoxelGrid.IsGridInside FBox.IsInsideOrOnB FBox.IsInsideOrOnV
  exact ⟨⟨Frac.le_refl _, h1, Frac.le_refl _, h2, Frac.le_refl _, h3⟩,
    ⟨h1, Frac.le_refl _, h2, Frac.le_refl _, h3, Frac.le_refl _⟩⟩

theorem getD_eq_getElem (l : List Bool) (j : ℕ) (h : j < l.length) :
    l.getD j false = l[j] := by
  rw [List.getD_eq_getElem?_getD, List.getElem?_eq_getElem h]
  rfl

/-- The positional self-combination of a store with itself (offset unset)
evaluates to the pointwise `op x x` image of the store. -/
theorem combine_self_none (op : Bool → Bool → Bool) (A : FVoxelData)
    (hoff : A.VoxelGrid.Offset = none)
    (h1 : A.VoxelGrid.Bounds.Min.X ≤ A.VoxelGrid.Bounds.Max.X)
    (h2 : A.VoxelGrid.Bounds.Min.Y ≤ A.VoxelGrid.Bounds.Max.Y)
    (h3 : A.VoxelGrid.Bounds.Min.Z ≤ A.VoxelGrid.Bounds.Max.Z) :
    ∃ r : List Bool,
      FVoxelData.Combine op A A = .ok ⟨r, A.VoxelGrid⟩ ∧
      r.length = A.OccupancyData.length ∧
      ∀ j : ℕ, j < r.length →
        r[j]? = some (op (A.OccupancyData.getD j false) (A.OccupancyData.getD j false)) := by
  obtain ⟨r, hr, hlen, hch⟩ :=
    posLoop_ok op A.OccupancyData A.OccupancyData A.OccupancyData.length le_rfl le_rfl
  refine ⟨r, ?_, hlen, ?_⟩
  · unfold FVoxelData.Combine
    rw [if_neg (by simp [gridInside_self _ h1 h2 h3]), if_neg (by omega), hoff, hr]
    rfl
  · intro j hj
    have hjA : j < A.OccupancyData.length := by omega
    have h1 := hch j
    rw [if_pos hjA] at h1
    rw [List.getElem?_eq_getElem hj]
    have e1 : r[j] = r.getD j false := (getD_eq_getElem r j hj).symm
    rw [e1, h1]

/-- C5 amended: for every occupancy store whose grid has no offset,
self-combination is the identity under OR and AND and annihilates under
XOR.  (For offset-carrying sub-grid stores the claim fails, see the
counterexample: the offset path translates the store's own coordinates
out of its own range.) -/
theorem claimC5_amended (A : FVoxelData) (hoff : A.VoxelGrid.Offset = none)
    (h1 : A.VoxelGrid.Bounds.Min.X ≤ A.VoxelGrid.Bounds.Max.X)
    (h2 : A.VoxelGrid.Bounds.Min.Y ≤ A.VoxelGrid.Bounds.Max.Y)
    (h3 : A.VoxelGrid.Bounds.Min.Z ≤ A.VoxelGrid.Bounds.Max.Z) :
    A.OrD A = .ok A ∧ A.AndD A = .ok A ∧
    A.XorD A = .ok ⟨List.replicate A.OccupancyData.length false, A.VoxelGrid⟩ := by
  refine ⟨?_, ?_, ?_⟩
  · obtain ⟨r, hr, hlen, hch⟩ := combine_self_none (fun x y => x || y) A hoff h1 h2 h3
    have : r = A.OccupancyData := by
      apply List.ext_getElem (by omega)
      intro j h1 h2
      have := hch j h1
      rw [List.getElem?_eq_getElem h1] at this
      have e2 : A.OccupancyData.getD j false = A.OccupancyData[j] :=
        getD_eq_getElem _ j h2
      rw [e2] at this
      have : r[j] = (A.OccupancyData[j] || A.OccupancyData[j]) :=
        Option.some.inj this
      rw [this, Bool.or_self]
    rw [show A.OrD A = FVoxelData.Combine (fun x y => x || y) A A from rfl, hr, this]
  · obtain ⟨r, hr, hlen, hch⟩ := combine_self_none (fun x y => x && y) A hoff h1 h2 h3
    have : r = A.OccupancyData := by
      apply List.ext_getElem (by omega)
      intro j h1 h2
      have := hch j h1
      rw [List.getElem?_eq_getElem h1] at this
      have e2 : A.OccupancyData.getD j false = A.OccupancyData[j] :=
        getD_eq_getElem _ j h2
      rw [e2] at this
      have : r[j] = (A.OccupancyData[j] && A.OccupancyData[j]) :=
        Option.some.inj this
      rw [this, Bool.and_self]
    rw [show A.AndD A = FVoxelData.Combine (fun x y => x && y) A A from rfl, hr, this]
  · obtain ⟨r, hr, hlen, hch⟩ := combine_self_none (fun x y => Bool.xor x y) A hoff h1 h2 h3
    have : r = List.replicate A.OccupancyData.length false := by
      apply List.ext_getElem (by simp [hlen])
      intro j h1 h2
      have hjA : j < A.OccupancyData.length := by omega
      have := hch j h1
      rw [List.getElem?_eq_getElem h1] at this
      have e2 : A.OccupancyData.getD j false = A.OccupancyData[j] :=
        getD_eq_getElem _ j hjA
      rw [e2] at this
      have hrj : r[j] = Bool.xor A.OccupancyData[j] A.OccupancyData[j] :=
        Option.some.inj this
      rw [hrj, Bool.xor_self]
      rw [List.getElem_replicate]
    rw [show A.XorD A = FVoxelData.Combine (fun x y => Bool.xor x y) A A from rfl, hr, this]

theorem claimC5_amended_witness :
    ((⟨[true, false], FVoxelGrid.Init ⟨1, 1, 1⟩
        ⟨⟨0, 0, 0⟩, ⟨2, 1, 1⟩⟩⟩ : FVoxelData).VoxelGrid.Offset = none) ∧
    ((⟨[true, false], FVoxelGrid.Init ⟨1, 1, 1⟩ ⟨⟨0, 0, 0⟩, ⟨2, 1, 1⟩⟩⟩ :
        FVoxelData).OrD ⟨[true, false], FVoxelGrid.Init ⟨1, 1, 1⟩ ⟨⟨0, 0, 0⟩, ⟨2, 1, 1⟩⟩⟩ =
      .ok ⟨[true, false], FVoxelGrid.Init ⟨1, 1, 1⟩ ⟨⟨0, 0, 0⟩, ⟨2, 1, 1⟩⟩⟩ ∧
     (⟨[true, false], FVoxelGrid.Init ⟨1, 1, 1⟩ ⟨⟨0, 0, 0⟩, ⟨2, 1, 1⟩⟩⟩ :
        FVoxelData).AndD ⟨[true, false], FVoxelGrid.Init ⟨1, 1, 1⟩ ⟨⟨0, 0, 0⟩, ⟨2, 1, 1⟩⟩⟩ =
      .ok ⟨[true, false], FVoxelGrid.Init ⟨1, 1, 1⟩ ⟨⟨0, 0, 0⟩, ⟨2, 1, 1⟩⟩⟩ ∧
     (⟨[true, false], FVoxelGrid.Init ⟨1, 1, 1⟩ ⟨⟨0, 0, 0⟩, ⟨2, 1, 1⟩⟩⟩ :
        FVoxelData).XorD ⟨[true, false], FVoxelGrid.Init ⟨1, 1, 1⟩ ⟨⟨0, 0, 0⟩, ⟨2, 1, 1⟩⟩⟩ =
      .ok ⟨List.replicate 2 false, FVoxelGrid.Init ⟨1, 1, 1⟩ ⟨⟨0, 0, 0⟩, ⟨2, 1, 1⟩⟩⟩) :=
  ⟨rfl, claimC5_amended ⟨[true, false], FVoxelGrid.Init ⟨1, 1, 1⟩ ⟨⟨0, 0, 0⟩, ⟨2, 1, 1⟩⟩⟩ rfl
    (by decide) (by decide) (by decide)⟩

/-- C5 fails as stated for sub-grid stores: a single-cell store on a
sub-grid with offset `(1,0,0)` OR-combined with itself does not equal
itself — the offset branch translates the store's own local coordinate by
the offset and the `checkf` in `GetVoxelIndex` rejects the result. -/
theorem claimC5_counterexample :
    (⟨[true], (FVoxelGrid.Init ⟨1, 1, 1⟩ ⟨⟨0, 0, 0⟩, ⟨2, 1, 1⟩⟩).GetSubGrid
        ⟨⟨1, 0, 0⟩, ⟨2, 1, 1⟩⟩⟩ : FVoxelData).OrD
      ⟨[true], (FVoxelGrid.Init ⟨1, 1, 1⟩ ⟨⟨0, 0, 0⟩, ⟨2, 1, 1⟩⟩).GetSubGrid
        ⟨⟨1, 0, 0⟩, ⟨2, 1, 1⟩⟩⟩ = .error .invalidCoordinate ∧
    (⟨[true], (FVoxelGrid.Init ⟨1, 1, 1⟩ ⟨⟨0, 0, 0⟩, ⟨2, 1, 1⟩⟩).GetSubGrid
        ⟨⟨1, 0, 0⟩, ⟨2, 1, 1⟩⟩⟩ : FVoxelData).OrD
      ⟨[true], (FVoxelGrid.Init ⟨1, 1, 1⟩ ⟨⟨0, 0, 0⟩, ⟨2, 1, 1⟩⟩).GetSubGrid
        ⟨⟨1, 0, 0⟩, ⟨2, 1, 1⟩⟩⟩ ≠
      .ok ⟨[true], (FVoxelGrid.Init ⟨1, 1, 1⟩ ⟨⟨0, 0, 0⟩, ⟨2, 1, 1⟩⟩).GetSubGrid
        ⟨⟨1, 0, 0⟩, ⟨2, 1, 1⟩⟩⟩ := by
  decide

/-- C4 fails as stated: with the other store's offset unset and the other
store strictly shorter (1 cell vs 2), the positional loop iterates over
this store's length and faults on the out-of-range read of the other
store's array — a range assert, not the `SizeMismatch` guard. -/
theorem claimC4_counterexample :
    (⟨[true], FVoxelGrid.Init ⟨1, 1, 1⟩ ⟨⟨0, 0, 0⟩, ⟨1, 1, 1⟩⟩⟩ :
        FVoxelData).OccupancyData.length ≠
      (⟨[false, false], FVoxelGrid.Init ⟨1, 1, 1⟩ ⟨⟨0, 0, 0⟩, ⟨2, 1, 1⟩⟩⟩ :
        FVoxelData).OccupancyData.length ∧
    (⟨[true], FVoxelGrid.Init ⟨1, 1, 1⟩ ⟨⟨0, 0, 0⟩, ⟨1, 1, 1⟩⟩⟩ :
        FVoxelData).VoxelGrid.Offset = none ∧
    (⟨[false, false], FVoxelGrid.Init ⟨1, 1, 1⟩ ⟨⟨0, 0, 0⟩, ⟨2, 1, 1⟩⟩⟩ :
        FVoxelData).OrD ⟨[true], FVoxelGrid.Init ⟨1, 1, 1⟩ ⟨⟨0, 0, 0⟩, ⟨1, 1, 1⟩⟩⟩ =
      .error .rangeError ∧
    (⟨[false, false], FVoxelGrid.Init ⟨1, 1, 1⟩ ⟨⟨0, 0, 0⟩, ⟨2, 1, 1⟩⟩⟩ :
        FVoxelData).OrD ⟨[true], FVoxelGrid.Init ⟨1, 1, 1⟩ ⟨⟨0, 0, 0⟩, ⟨1, 1, 1⟩⟩⟩ ≠
      .error .sizeMismatch := by
  decide

/-- C4 amended: with the other store's offset unset and its grid inside
this store's grid, the combination (any of AND/OR/XOR, which share this
body) requires equal cell counts to succeed: a strictly longer other
store fails the `SizeMismatch` guard before any mutation; equal lengths
combine strictly positionally (index-for-index); a strictly shorter
other store passes the guard but the positional loop, which runs over
this store's length, faults with a range error on reading past the end
of the other store's array. -/
theorem claimC4_amended (op : Bool → Bool → Bool) (G L : FVoxelData)
    (hoff : L.VoxelGrid.Offset = none)
    (hin : G.VoxelGrid.IsGridInside L.VoxelGrid) :
    (G.OccupancyData.length < L.OccupancyData.length →
      FVoxelData.Combine op G L = .error .sizeMismatch) ∧
    (L.OccupancyData.length = G.OccupancyData.length →
      FVoxelData.Combine op G L =
        .ok ⟨List.zipWith op G.OccupancyData L.OccupancyData, G.VoxelGrid⟩) ∧
    (L.OccupancyData.length < G.OccupancyData.length →
      FVoxelData.Combine op G L = .error .rangeError) := by
  refine ⟨?_, ?_, ?_⟩
  · intro hlt
    unfold FVoxelData.Combine
    rw [if_neg (by simp [hin]), if_pos hlt]
  · intro heq
    obtain ⟨r, hr, hlen, hch⟩ :=
      posLoop_ok op L.OccupancyData G.OccupancyData G.OccupancyData.length
        le_rfl (by omega)
    have hrz : r = List.zipWith op G.OccupancyData L.OccupancyData := by
      apply List.ext_getElem (by simp [hlen, heq])
      intro j hj1 hj2
      have hjG : j < G.OccupancyData.length := by omega
      have hjL : j < L.OccupancyData.length := by omega
      have h1 := hch j
      rw [if_pos hjG] at h1
      rw [← getD_eq_getElem r j hj1, h1, List.getElem_zipWith,
        getD_eq_getElem _ j hjG, getD_eq_getElem _ j hjL]
    unfold FVoxelData.Combine
    rw [if_neg (by simp [hin]), if_neg (by omega), hoff, hr, hrz]
    rfl
  · intro hlt
    unfold FVoxelData.Combine
    rw [if_neg (by simp [hin]), if_neg (by omega), hoff,
      posLoop_err op L.OccupancyData G.OccupancyData G.OccupancyData.length hlt
        (by omega)]
    rfl

theorem claimC4_amended_witness :
    ((⟨[true, true], FVoxelGrid.Init ⟨1, 1, 1⟩ ⟨⟨0, 0, 0⟩, ⟨2, 1, 1⟩⟩⟩ :
        FVoxelData).VoxelGrid.Offset = none ∧
     (⟨[false, true], FVoxelGrid.Init ⟨1, 1, 1⟩ ⟨⟨0, 0, 0⟩, ⟨2, 1, 1⟩⟩⟩ :
        FVoxelData).VoxelGrid.IsGridInside
       (⟨[true, true], FVoxelGrid.Init ⟨1, 1, 1⟩ ⟨⟨0, 0, 0⟩, ⟨2, 1, 1⟩⟩⟩ :
        FVoxelData).VoxelGrid) ∧
    FVoxelData.Combine (fun x y => x || y)
      ⟨[false, true], FVoxelGrid.Init ⟨1, 1, 1⟩ ⟨⟨0, 0, 0⟩, ⟨2, 1, 1⟩⟩⟩
      ⟨[true, true], FVoxelGrid.Init ⟨1, 1, 1⟩ ⟨⟨0, 0, 0⟩, ⟨2, 1, 1⟩⟩⟩ =
      .ok ⟨List.zipWith (fun x y => x || y) [false, true] [true, true],
        (FVoxelGrid.Init ⟨1, 1, 1⟩ ⟨⟨0, 0, 0⟩, ⟨2, 1, 1⟩⟩)⟩ :=
  ⟨⟨rfl, by decide⟩,
   (claimC4_amended (fun x y => x || y)
     ⟨[false, true], FVoxelGrid.Init ⟨1, 1, 1⟩ ⟨⟨0, 0, 0⟩, ⟨2, 1, 1⟩⟩⟩
     ⟨[true, true], FVoxelGrid.Init ⟨1, 1, 1⟩ ⟨⟨0, 0, 0⟩, ⟨2, 1, 1⟩⟩⟩
     rfl (by decide)).2.1 rfl⟩

/-- C7: the code contradicts the containment reading (and its own doc
comment): `IsInsideOrOn(FOOBBoxProxy)` returns true as soon as ONE corner
of the argument box is inside `this`.  For the unit cube at the origin
against the unit cube centered at `(3/2, 0, 0)` it returns true although
neither box has all 8 corners inside the other. -/
theorem claimC7_inside_or_on_bug :
    (⟨⟨0, 0, 0⟩, ⟨1, 1, 1⟩, FQuatD.ident, true⟩ :
        FOOBBoxProxy).IsInsideOrOnOBB
      ⟨⟨⟨3, 2, Nat.succ_pos 1⟩, 0, 0⟩, ⟨1, 1, 1⟩, FQuatD.ident, true⟩ = true ∧
    ((⟨⟨⟨3, 2, Nat.succ_pos 1⟩, 0, 0⟩, ⟨1, 1, 1⟩, FQuatD.ident, true⟩ :
        FOOBBoxProxy).GetCorners.all
      (fun c => (⟨⟨0, 0, 0⟩, ⟨1, 1, 1⟩, FQuatD.ident, true⟩ :
        FOOBBoxProxy).IsInsideOrOnP c)) = false ∧
    ((⟨⟨0, 0, 0⟩, ⟨1, 1, 1⟩, FQuatD.ident, true⟩ :
        FOOBBoxProxy).GetCorners.all
      (fun c => (⟨⟨⟨3, 2, Nat.succ_pos 1⟩, 0, 0⟩, ⟨1, 1, 1⟩, FQuatD.ident, true⟩ :
        FOOBBoxProxy).IsInsideOrOnP c)) = false := by
  decide

set_option maxRecDepth 8000 in
/-- C8: the code does not degenerate a zero-length capsule to a sphere
test at the endpoint.  The degenerate projection returns the
default-constructed result with `ProjectedPoint = ZeroVector`, losing the
segment point, so the subsequent point-in-box test uses the world origin:
for the capsule with `Start = End = (10,0,0)`, radius 1, against the box
`[(9.5,-0.5,-0.5),(10.5,0.5,0.5)]` the code answers false while the
sphere test at the endpoint answers true.  (No division by zero occurs:
the `DBL_EPSILON` guard does fire.) -/
theorem claimC8_capsule_degenerate_bug :
    (⟨⟨10, 0, 0⟩, ⟨10, 0, 0⟩, 1⟩ : FCapsuleProxy).Start =
      (⟨⟨10, 0, 0⟩, ⟨10, 0, 0⟩, 1⟩ : FCapsuleProxy).CapEnd ∧
    (⟨⟨10, 0, 0⟩, ⟨10, 0, 0⟩, 1⟩ : FCapsuleProxy).Intersects
      ⟨⟨⟨19, 2, Nat.succ_pos 1⟩, ⟨-1, 2, Nat.succ_pos 1⟩, ⟨-1, 2, Nat.succ_pos 1⟩⟩,
       ⟨⟨21, 2, Nat.succ_pos 1⟩, ⟨1, 2, Nat.succ_pos 1⟩, ⟨1, 2, Nat.succ_pos 1⟩⟩⟩ =
      false ∧
    sphereAABBIntersection ⟨10, 0, 0⟩ ((1 : Frac) * 1)
      ⟨⟨⟨19, 2, Nat.succ_pos 1⟩, ⟨-1, 2, Nat.succ_pos 1⟩, ⟨-1, 2, Nat.succ_pos 1⟩⟩,
       ⟨⟨21, 2, Nat.succ_pos 1⟩, ⟨1, 2, Nat.succ_pos 1⟩, ⟨1, 2, Nat.succ_pos 1⟩⟩⟩ =
      true := by
  decide

/-- C6 fails as stated: for the axis-aligned boxes `A` (center origin,
extents `(1,5,5)`) and `B` (center `(0,0,4)`, extents `(5,5,1)`) the SAT
test answers differently depending on the argument order — the
cross-product-axis loop radii use `Extents[M]` for both terms of `RA`
instead of the two distinct extents, which is asymmetric for non-cubical
extents. -/
theorem claimC6_counterexample :
    (⟨⟨0, 0, 0⟩, ⟨1, 5, 5⟩, FQuatD.ident, true⟩ : FOOBBoxProxy).Intersect
      ⟨⟨0, 0, 4⟩, ⟨5, 5, 1⟩, FQuatD.ident, true⟩ = false ∧
    (⟨⟨0, 0, 4⟩, ⟨5, 5, 1⟩, FQuatD.ident, true⟩ : FOOBBoxProxy).Intersect
      ⟨⟨0, 0, 0⟩, ⟨1, 5, 5⟩, FQuatD.ident, true⟩ = true := by
  decide

theorem identAxisX : FQuatD.ident.GetAxisX =
    ⟨⟨1, 1, Nat.one_pos⟩, ⟨0, 1, Nat.one_pos⟩, ⟨0, 1, Nat.one_pos⟩⟩ := by decide

theorem identAxisY : FQuatD.ident.GetAxisY =
    ⟨⟨0, 1, Nat.one_pos⟩, ⟨1, 1, Nat.one_pos⟩, ⟨0, 1, Nat.one_pos⟩⟩ := by decide

theorem identAxisZ : FQuatD.ident.GetAxisZ =
    ⟨⟨0, 1, Nat.one_pos⟩, ⟨0, 1, Nat.one_pos⟩, ⟨1, 1, Nat.one_pos⟩⟩ := by decide

theorem Frac.toRat_mk_den_one (n : ℤ) (p : 0 < 1) :
    (⟨n, 1, p⟩ : Frac).toRat = (n : ℚ) := by
  simp [Frac.toRat]

theorem kindaSmall_toRat : kindaSmall.toRat = 1 / 10000 := by
  norm_num [kindaSmall, Frac.toRat]

set_option maxHeartbeats 2000000 in
/-- One direction of the symmetry of the SAT test for axis-aligned cubes:
with identity orientations and per-box-uniform extents the broken
`Extents[M]` radius coincides with the intended one, and every test of
one call pairs with a test of the swapped call. -/
theorem cubeIntersect_imp (cA cB : FVector) (ea eb : Frac) :
    (⟨cA, ⟨ea, ea, ea⟩, FQuatD.ident, true⟩ : FOOBBoxProxy).Intersect
      ⟨cB, ⟨eb, eb, eb⟩, FQuatD.ident, true⟩ = true →
    (⟨cB, ⟨eb, eb, eb⟩, FQuatD.ident, true⟩ : FOOBBoxProxy).Intersect
      ⟨cA, ⟨ea, ea, ea⟩, FQuatD.ident, true⟩ = true := by
  intro h
  simp only [FOOBBoxProxy.Intersect, Bool.and_eq_true, decide_eq_true_eq] at h ⊢
  simp only [FOOBBoxProxy.condFaceA, FOOBBoxProxy.condFaceB, FOOBBoxProxy.condA0B0,
    FOOBBoxProxy.condEdge, FOOBBoxProxy.Rmat, FOOBBoxProxy.AbsRmat, FOOBBoxProxy.TAvec,
    FOOBBoxProxy.axisArr, identAxisX, identAxisY, identAxisZ, FVector.dot, FVector.sub,
    FVector.comp, Frac.le_iff, kindaSmall_toRat, Frac.toRat_mk_den_one,
    Frac.toRat_add, Frac.toRat_sub, Frac.toRat_mul, Frac.toRat_absF,
    Int.cast_one, Int.cast_zero, mul_one, mul_zero, zero_mul, one_mul,
    add_zero, zero_add, abs_one, abs_zero, sub_zero, zero_sub, abs_neg] at h ⊢
  obtain ⟨⟨⟨⟨⟨⟨⟨⟨⟨⟨⟨⟨⟨⟨⟨h1, h2⟩, h3⟩, h4⟩, h5⟩, h6⟩, h7⟩, h8⟩, h9⟩, h10⟩, h11⟩,
    h12⟩, h13⟩, h14⟩, h15⟩, h16⟩ := h
  refine ⟨⟨⟨⟨⟨⟨⟨⟨⟨⟨⟨⟨⟨⟨⟨?_, ?_⟩, ?_⟩, ?_⟩, ?_⟩, ?_⟩, ?_⟩, ?_⟩, ?_⟩, ?_⟩, ?_⟩,
    ?_⟩, ?_⟩, ?_⟩, ?_⟩, ?_⟩ <;>
    first
    | linarith
    | (rw [abs_sub_comm]; linarith)

/-- C6 amended: the separating-axis predicate is symmetric for
axis-aligned cubes (identity orientation, equal extents on all three axes
per box); in general it is not symmetric (see the counterexample, where
the boxes are axis-aligned but non-cubical). -/
theorem claimC6_amended (cA cB : FVector) (ea eb : Frac) :
    (⟨cA, ⟨ea, ea, ea⟩, FQuatD.ident, true⟩ : FOOBBoxProxy).Intersect
      ⟨cB, ⟨eb, eb, eb⟩, FQuatD.ident, true⟩ =
    (⟨cB, ⟨eb, eb, eb⟩, FQuatD.ident, true⟩ : FOOBBoxProxy).Intersect
      ⟨cA, ⟨ea, ea, ea⟩, FQuatD.ident, true⟩ :=
  Bool.eq_iff_iff.mpr ⟨fun x => cubeIntersect_imp cA cB ea eb x,
    fun x => cubeIntersect_imp cB cA eb ea x⟩

theorem subgrid_axis_bound (sq gm gM bm bM : ℚ) (hs : 0 < sq)
    (h1 : (⌊gm / sq⌋ : ℚ) * sq ≤ bm) (h2 : bM ≤ (⌈gM / sq⌉ : ℚ) * sq)
    (c : ℤ) (hc0 : 0 ≤ c) (hcU : c < ⌈bM / sq⌉ - ⌊bm / sq⌋) :
    0 ≤ (⌊bm / sq⌋ - ⌊gm / sq⌋) + c ∧
    (⌊bm / sq⌋ - ⌊gm / sq⌋) + c < ⌈gM / sq⌉ - ⌊gm / sq⌋ := by
  have e1 : ⌊gm / sq⌋ ≤ ⌊bm / sq⌋ := qfloor_mono_of_le _ _ _ hs h1
  have e2 : ⌈bM / sq⌉ ≤ ⌈gM / sq⌉ := qceil_mono_of_le _ _ _ hs h2
  omega

theorem qcnt_nonneg (sq bm bM : ℚ) (hs : 0 < sq) (hb : bm ≤ bM) :
    0 ≤ ⌈bM / sq⌉ - ⌊bm / sq⌋ := by
  have e1 : ⌊bm / sq⌋ ≤ ⌊bM / sq⌋ := Int.floor_mono (by gcongr)
  have e2 : ⌊bM / sq⌋ ≤ ⌈bM / sq⌉ := Int.floor_le_ceil _
  omega

/-- C1: OR-merging a store built on a sub-grid of the target's grid sets,
for each occupied local cell, exactly the target cell at the
offset-translated coordinate: the result cell at flat index `j` holds iff
it held before or some occupied local cell `i` translates (local
coordinate plus offset, linearized in the target grid) to `j`. -/
theorem claimC1_subgrid_merge (s : FVector) (gb B : FBox)
    (Gcells Lcells : List Bool)
    (hsx : (0 : Frac) < s.X) (hsy : (0 : Frac) < s.Y) (hsz : (0 : Frac) < s.Z)
    (hcont : (FVoxelGrid.Init s gb).Bounds.IsInsideOrOnB B)
    (hbx : B.Min.X ≤ B.Max.X) (hby : B.Min.Y ≤ B.Max.Y) (hbz : B.Min.Z ≤ B.Max.Z)
    (hGlen : Gcells.length = (FVoxelGrid.Init s gb).GetVoxelCount.toNat)
    (hLlen : Lcells.length =
      ((FVoxelGrid.Init s gb).GetSubGrid B).GetVoxelCount.toNat)
    (hsize : Lcells.length ≤ Gcells.length)
    (hinside : (FVoxelGrid.Init s gb).IsGridInside
      ((FVoxelGrid.Init s gb).GetSubGrid B)) :
    ∃ r : List Bool,
      (⟨Gcells, FVoxelGrid.Init s gb⟩ : FVoxelData).OrD
        ⟨Lcells, (FVoxelGrid.Init s gb).GetSubGrid B⟩ =
        .ok ⟨r, FVoxelGrid.Init s gb⟩ ∧
      r.length = Gcells.length ∧
      ∀ j : ℕ, r.getD j false =
        (Gcells.getD j false ||
          (List.range Lcells.length).any
            (fun i => Lcells.getD i false &&
              (offTarget (FVoxelGrid.Init s gb) ((FVoxelGrid.Init s gb).GetSubGrid B)
                ((FVoxelGrid.Init s gb).GetVoxelCoordinateL B.Min) i == j))) := by
  rw [Frac.lt_iff, Frac.toRat_zero] at hsx hsy hsz
  rw [Frac.le_iff] at hbx hby hbz
  obtain ⟨⟨i1, i2, i3, i4, i5, i6⟩, ⟨j1, j2, j3, j4, j5, j6⟩⟩ := hcont
  rw [Frac.le_iff] at i1 i2 i3 i4 i5 i6 j1 j2 j3 j4 j5 j6
  simp only [FVoxelGrid.Init, Frac.toRat_mul, Frac.toRat_ofInt, Frac.floorI_eq,
    Frac.ceilI_eq, Frac.toRat_div] at i1 i3 i5 j2 j4 j6
  -- per-axis count and offset evaluations
  have hGcx : (FVoxelGrid.Init s gb).VoxelCount.X =
      ⌈gb.Max.X.toRat / s.X.toRat⌉ - ⌊gb.Min.X.toRat / s.X.toRat⌋ := by
    simp only [FVoxelGrid.Init, Frac.ceilI_eq, Frac.floorI_eq, Frac.toRat_sub,
      Frac.toRat_div, Frac.toRat_mul, Frac.toRat_ofInt]
    exact qsnap_cnt _ _ _ hsx
  have hGcy : (FVoxelGrid.Init s gb).VoxelCount.Y =
      ⌈gb.Max.Y.toRat / s.Y.toRat⌉ - ⌊gb.Min.Y.toRat / s.Y.toRat⌋ := by
    simp only [FVoxelGrid.Init, Frac.ceilI_eq, Frac.floorI_eq, Frac.toRat_sub,
      Frac.toRat_div, Frac.toRat_mul, Frac.toRat_ofInt]
    exact qsnap_cnt _ _ _ hsy
  have hGcz : (FVoxelGrid.Init s gb).VoxelCount.Z =
      ⌈gb.Max.Z.toRat / s.Z.toRat⌉ - ⌊gb.Min.Z.toRat / s.Z.toRat⌋ := by
    simp only [FVoxelGrid.Init, Frac.ceilI_eq, Frac.floorI_eq, Frac.toRat_sub,
      Frac.toRat_div, Frac.toRat_mul, Frac.toRat_ofInt]
    exact qsnap_cnt _ _ _ hsz
  have hLcx : ((FVoxelGrid.Init s gb).GetSubGrid B).VoxelCount.X =
      ⌈B.Max.X.toRat / s.X.toRat⌉ - ⌊B.Min.X.toRat / s.X.toRat⌋ := by
    simp only [FVoxelGrid.GetSubGrid, FVoxelGrid.InitSub, FVoxelGrid.Init,
      Frac.ceilI_eq, Frac.floorI_eq, Frac.toRat_sub, Frac.toRat_div,
      Frac.toRat_mul, Frac.toRat_ofInt]
    exact qsnap_cnt _ _ _ hsx
  have hLcy : ((FVoxelGrid.Init s gb).GetSubGrid B).VoxelCount.Y =
      ⌈B.Max.Y.toRat / s.Y.toRat⌉ - ⌊B.Min.Y.toRat / s.Y.toRat⌋ := by
    simp only [FVoxelGrid.GetSubGrid, FVoxelGrid.InitSub, FVoxelGrid.Init,
      Frac.ceilI_eq, Frac.floorI_eq, Frac.toRat_sub, Frac.toRat_div,
      Frac.toRat_mul, Frac.toRat_ofInt]
    exact qsnap_cnt _ _ _ hsy
  have hLcz : ((FVoxelGrid.Init s gb).GetSubGrid B).VoxelCount.Z =
      ⌈B.Max.Z.toRat / s.Z.toRat⌉ - ⌊B.Min.Z.toRat / s.Z.toRat⌋ := by
    simp only [FVoxelGrid.GetSubGrid, FVoxelGrid.InitSub, FVoxelGrid.Init,
      Frac.ceilI_eq, Frac.floorI_eq, Frac.toRat_sub, Frac.toRat_div,
      Frac.toRat_mul, Frac.toRat_ofInt]
    exact qsnap_cnt _ _ _ hsz
  have hoffx : ((FVoxelGrid.Init s gb).GetVoxelCoordinateL B.Min).X =
      ⌊B.Min.X.toRat / s.X.toRat⌋ - ⌊gb.Min.X.toRat / s.X.toRat⌋ := by
    simp only [FVoxelGrid.GetVoxelCoordinateL, FVoxelGrid.Init,
      Frac.floorI_eq, Frac.toRat_sub, Frac.toRat_div, Frac.toRat_mul,
      Frac.toRat_ofInt]
    exact qoff_floor _ _ _ hsx
  have hoffy : ((FVoxelGrid.Init s gb).GetVoxelCoordinateL B.Min).Y =
      ⌊B.Min.Y.toRat / s.Y.toRat⌋ - ⌊gb.Min.Y.toRat / s.Y.toRat⌋ := by
    simp only [FVoxelGrid.GetVoxelCoordinateL, FVoxelGrid.Init,
      Frac.floorI_eq, Frac.toRat_sub, Frac.toRat_div, Frac.toRat_mul,
      Frac.toRat_ofInt]
    exact qoff_floor _ _ _ hsy
  have hoffz : ((FVoxelGrid.Init s gb).GetVoxelCoordinateL B.Min).Z =
      ⌊B.Min.Z.toRat / s.Z.toRat⌋ - ⌊gb.Min.Z.toRat / s.Z.toRat⌋ := by
    simp only [FVoxelGrid.GetVoxelCoordinateL, FVoxelGrid.Init,
      Frac.floorI_eq, Frac.toRat_sub, Frac.toRat_div, Frac.toRat_mul,
      Frac.toRat_ofInt]
    exact qoff_floor _ _ _ hsz
  have hLcx0 : 0 ≤ ((FVoxelGrid.Init s gb).GetSubGrid B).VoxelCount.X := by
    rw [hLcx]; exact qcnt_nonneg _ _ _ hsx hbx
  have hLcy0 : 0 ≤ ((FVoxelGrid.Init s gb).GetSubGrid B).VoxelCount.Y := by
    rw [hLcy]; exact qcnt_nonneg _ _ _ hsy hby
  have hLcz0 : 0 ≤ ((FVoxelGrid.Init s gb).GetSubGrid B).VoxelCount.Z := by
    rw [hLcz]; exact qcnt_nonneg _ _ _ hsz hbz
  -- every loop iteration's guards pass
  have hval : ∀ i : ℕ, i < Lcells.length →
      ((FVoxelGrid.Init s gb).GetSubGrid B).IsVoxelIndexValid (i : ℤ) ∧
      (FVoxelGrid.Init s gb).IsVoxelCoordinateValid
        ((FVoxelGrid.Init s gb).GetVoxelCoordinateL B.Min +
          ((FVoxelGrid.Init s gb).GetSubGrid B).GetVoxelCoordinateI (i : ℤ)) ∧
      offTarget (FVoxelGrid.Init s gb) ((FVoxelGrid.Init s gb).GetSubGrid B)
        ((FVoxelGrid.Init s gb).GetVoxelCoordinateL B.Min) i < Gcells.length := by
    intro i hi
    have htot0 : 0 ≤ ((FVoxelGrid.Init s gb).GetSubGrid B).GetVoxelCount := by
      unfold FVoxelGrid.GetVoxelCount
      exact mul_nonneg (mul_nonneg hLcx0 hLcy0) hLcz0
    have hvi : ((FVoxelGrid.Init s gb).GetSubGrid B).IsVoxelIndexValid (i : ℤ) := by
      constructor
      · exact Int.ofNat_nonneg i
      · omega
    obtain ⟨hcvalid, _⟩ := gridCoordI_spec ((FVoxelGrid.Init s gb).GetSubGrid B)
      (i : ℤ) hvi ⟨hLcx0, hLcy0, hLcz0⟩
    obtain ⟨cx0, cx1, cy0, cy1, cz0, cz1⟩ := hcvalid
    rw [hLcx] at cx1
    rw [hLcy] at cy1
    rw [hLcz] at cz1
    have hbX := subgrid_axis_bound s.X.toRat gb.Min.X.toRat gb.Max.X.toRat
      B.Min.X.toRat B.Max.X.toRat hsx i1 j2 _ cx0 cx1
    have hbY := subgrid_axis_bound s.Y.toRat gb.Min.Y.toRat gb.Max.Y.toRat
      B.Min.Y.toRat B.Max.Y.toRat hsy i3 j4 _ cy0 cy1
    have hbZ := subgrid_axis_bound s.Z.toRat gb.Min.Z.toRat gb.Max.Z.toRat
      B.Min.Z.toRat B.Max.Z.toRat hsz i5 j6 _ cz0 cz1
    have hcoordv : (FVoxelGrid.Init s gb).IsVoxelCoordinateValid
        ((FVoxelGrid.Init s gb).GetVoxelCoordinateL B.Min +
          ((FVoxelGrid.Init s gb).GetSubGrid B).GetVoxelCoordinateI (i : ℤ)) := by
      refine ⟨?_, ?_, ?_, ?_, ?_, ?_⟩
      · show 0 ≤ ((FVoxelGrid.Init s gb).GetVoxelCoordinateL B.Min).X +
          (((FVoxelGrid.Init s gb).GetSubGrid B).GetVoxelCoordinateI (i : ℤ)).X
        rw [hoffx]
        exact hbX.1
      · show ((FVoxelGrid.Init s gb).GetVoxelCoordinateL B.Min).X +
          (((FVoxelGrid.Init s gb).GetSubGrid B).GetVoxelCoordinateI (i : ℤ)).X <
          (FVoxelGrid.Init s gb).VoxelCount.X
        rw [hoffx, hGcx]
        exact hbX.2
      · show 0 ≤ ((FVoxelGrid.Init s gb).GetVoxelCoordinateL B.Min).Y +
          (((FVoxelGrid.Init s gb).GetSubGrid B).GetVoxelCoordinateI (i : ℤ)).Y
        rw [hoffy]
        exact hbY.1
      · show ((FVoxelGrid.Init s gb).GetVoxelCoordinateL B.Min).Y +
          (((FVoxelGrid.Init s gb).GetSubGrid B).GetVoxelCoordinateI (i : ℤ)).Y <
          (FVoxelGrid.Init s gb).VoxelCount.Y
        rw [hoffy, hGcy]
        exact hbY.2
      · show 0 ≤ ((FVoxelGrid.Init s gb).GetVoxelCoordinateL B.Min).Z +
          (((FVoxelGrid.Init s gb).GetSubGrid B).GetVoxelCoordinateI (i : ℤ)).Z
        rw [hoffz]
        exact hbZ.1
      · show ((FVoxelGrid.Init s gb).GetVoxelCoordinateL B.Min).Z +
          (((FVoxelGrid.Init s gb).GetSubGrid B).GetVoxelCoordinateI (i : ℤ)).Z <
          (FVoxelGrid.Init s gb).VoxelCount.Z
        rw [hoffz, hGcz]
        exact hbZ.2
    refine ⟨hvi, hcoordv, ?_⟩
    obtain ⟨hidx0, hidxU⟩ := (gridIndexC_spec (FVoxelGrid.Init s gb) _ hcoordv).1
    unfold offTarget
    omega
  obtain ⟨r, hr, hlen, hch⟩ := orOffLoop_ok (FVoxelGrid.Init s gb)
    ((FVoxelGrid.Init s gb).GetSubGrid B)
    ((FVoxelGrid.Init s gb).GetVoxelCoordinateL B.Min) Lcells Gcells
    Lcells.length hval
  refine ⟨r, ?_, hlen, hch⟩
  unfold FVoxelData.OrD FVoxelData.Combine
  rw [if_neg (not_not_intro hinside)]
  rw [if_neg (show ¬ (⟨Gcells, FVoxelGrid.Init s gb⟩ : FVoxelData).OccupancyData.length <
      (⟨Lcells, (FVoxelGrid.Init s gb).GetSubGrid B⟩ : FVoxelData).OccupancyData.length by
    show ¬ Gcells.length < Lcells.length
    omega)]
  show ((List.range Lcells.length).foldlM
      (FVoxelData.combStep (fun x y => x || y) (FVoxelGrid.Init s gb)
        ((FVoxelGrid.Init s gb).GetSubGrid B)
        ((FVoxelGrid.Init s gb).GetVoxelCoordinateL B.Min) Lcells)
      Gcells).map (fun cells => (⟨cells, FVoxelGrid.Init s gb⟩ : FVoxelData)) =
    (Except.ok ⟨r, FVoxelGrid.Init s gb⟩ : Except VoxErr FVoxelData)
  rw [hr]
  rfl

theorem claimC1_subgrid_merge_witness :
    ((0 : Frac) < subMergeSize.X ∧ (0 : Frac) < subMergeSize.Y ∧
      (0 : Frac) < subMergeSize.Z ∧
      (FVoxelGrid.Init subMergeSize subMergeGB).Bounds.IsInsideOrOnB subMergeB ∧
      subMergeB.Min.X ≤ subMergeB.Max.X ∧ subMergeB.Min.Y ≤ subMergeB.Max.Y ∧
      subMergeB.Min.Z ≤ subMergeB.Max.Z ∧
      subMergeG.length = (FVoxelGrid.Init subMergeSize subMergeGB).GetVoxelCount.toNat ∧
      subMergeL.length =
        ((FVoxelGrid.Init subMergeSize subMergeGB).GetSubGrid subMergeB).GetVoxelCount.toNat ∧
      subMergeL.length ≤ subMergeG.length ∧
      (FVoxelGrid.Init subMergeSize subMergeGB).IsGridInside
        ((FVoxelGrid.Init subMergeSize subMergeGB).GetSubGrid subMergeB)) ∧
    (∃ r : List Bool,
      (⟨subMergeG, FVoxelGrid.Init subMergeSize subMergeGB⟩ : FVoxelData).OrD
        ⟨subMergeL, (FVoxelGrid.Init subMergeSize subMergeGB).GetSubGrid subMergeB⟩ =
        .ok ⟨r, FVoxelGrid.Init subMergeSize subMergeGB⟩ ∧
      r.length = subMergeG.length ∧
      ∀ j : ℕ, r.getD j false =
        (subMergeG.getD j false ||
          (List.range subMergeL.length).any
            (fun i => subMergeL.getD i false &&
              (offTarget (FVoxelGrid.Init subMergeSize subMergeGB)
                ((FVoxelGrid.Init subMergeSize subMergeGB).GetSubGrid subMergeB)
                ((FVoxelGrid.Init subMergeSize subMergeGB).GetVoxelCoordinateL subMergeB.Min)
                i == j)))) :=
  ⟨⟨by decide, by decide, by decide, by decide, by decide, by decide, by decide,
    by decide, by decide, by decide, by decide⟩,
   claimC1_subgrid_merge subMergeSize subMergeGB subMergeB subMergeG subMergeL
     (by decide) (by decide) (by decide) (by decide) (by decide) (by decide)
     (by decide) (by decide) (by decide) (by decide) (by decide)⟩
